import Mathlib

/-!
Verification of the lazyrestic TUI core: a shallow embedding, in Lean 4, of
the data model, the snapshot filter engine, the viewport and pagination
controllers, the confirmation dialog, the restic client channel adapters,
the configuration loader and the reactive model update function, translated
from the Go sources, together with theorems settling the specification
claims about them.

Conventions of the embedding:
- Go `int` becomes `Int`; list lengths are coerced where compared.
- Go `string` becomes `String`; `strings.Contains` and `strings.ToLower`
  are modelled over the character lists (ASCII case folding, which agrees
  with Go on the ASCII inputs every claim uses).
- Go pointers that may be nil become `Option`; Go `error` becomes
  `Option String` holding the message.
- `time.Time` carries is abstracted as an `Int` instant; no claim depends
  on real time.
- Mutating methods become functions returning the updated record.
-/

namespace LazyRestic

/-! ## String primitives (Go strings.Contains / strings.ToLower) -/

/-- Whether `pat` is a leading segment of `l` (helper for substring search). -/
def leadsWith : List Char → List Char → Bool
  | [], _ => true
  | _ :: _, [] => false
  | a :: as, b :: bs => a == b && leadsWith as bs

/-- Whether `pat` occurs contiguously inside `hay`; models Go strings.Contains. -/
def hasSub (pat : List Char) : List Char → Bool
  | [] => pat.isEmpty
  | c :: rest => leadsWith pat (c :: rest) || hasSub pat rest

/-- Go strings.Contains s sub. -/
def strContains (s sub : String) : Bool :=
  hasSub sub.toList s.toList

/-- Go strings.ToLower, restricted to ASCII case folding. -/
def goToLower (s : String) : String :=
  ⟨s.toList.map Char.toLower⟩

/-! ## Domain types (pkg/types) -/

/-- types.Snapshot: one immutable restic snapshot record. -/
structure Snapshot where
  id : String
  time : Int
  hostname : String
  username : String
  paths : List String
  tags : List String
  shortID : String
deriving Repr, DecidableEq, Inhabited

/-- types.Repository: a configured backup destination with last-known stats. -/
structure Repository where
  name : String
  path : String
  lastBackup : Int
  size : Int
  totalFiles : Int
  snapshotCount : Int
  status : String
deriving Repr, DecidableEq, Inhabited

/-- types.RepositoryConfig: one configured repository entry. -/
structure RepositoryConfig where
  name : String
  path : String
  passwordCommand : String
  passwordFile : String
  password : String
deriving Repr, DecidableEq, Inhabited

/-- types.ResticConfig: the application configuration. -/
structure ResticConfig where
  repositories : List RepositoryConfig
deriving Repr, DecidableEq, Inhabited

/-- types.BackupProgress; percent_done, a float64 in the source, is abstracted
as an `Int` since no claim depends on its arithmetic. -/
structure BackupProgress where
  messageType : String
  percentDone : Int
  totalFiles : Int
  filesDone : Int
  totalBytes : Int
  bytesDone : Int
  currentFiles : List String
  secondsElapsed : Int
  secondsRemaining : Int
deriving Repr, DecidableEq, Inhabited

/-- types.BackupSummary. -/
structure BackupSummary where
  messageType : String
  filesNew : Int
  filesChanged : Int
  filesUnmodified : Int
  dataAdded : Int
  totalFilesProcessed : Int
  totalBytesProcessed : Int
  snapshotID : String
deriving Repr, DecidableEq, Inhabited

/-- types.RestoreProgress; the float64 percent_done is abstracted as `Int`. -/
structure RestoreProgress where
  messageType : String
  percentDone : Int
  totalFiles : Int
  filesRestored : Int
  totalBytes : Int
  bytesRestored : Int
  secondsElapsed : Int
  secondsRemaining : Int
deriving Repr, DecidableEq, Inhabited

/-- types.RestoreSummary. -/
structure RestoreSummary where
  messageType : String
  totalFiles : Int
  totalBytes : Int
  secondsElapsed : Int
deriving Repr, DecidableEq, Inhabited

/-- types.BackupOptions. -/
structure BackupOptions where
  paths : List String
  tags : List String
  exclude : List String
deriving Repr, DecidableEq, Inhabited

/-- types.RestoreOptions. -/
structure RestoreOptions where
  snapshotID : String
  target : String
  includePaths : List String
deriving Repr, DecidableEq, Inhabited

/-- types.FileNode, restricted to the fields the file browser logic reads. -/
structure FileNode where
  messageType : String
  name : String
  nodeType : String
  path : String
  size : Int
  selected : Bool
deriving Repr, DecidableEq, Inhabited

/-- types.FileNode.IsDir. -/
def FileNode.isDir (n : FileNode) : Bool := n.nodeType == "dir"

/-- types.Panel is a Go int-backed enum; panel cycling uses modular
arithmetic on the numeric value, so it is kept as an `Int`. -/
abbrev Panel := Int

def panelRepositories : Panel := 0
def panelMetrics : Panel := 1
def panelSnapshots : Panel := 2
def panelOperations : Panel := 3

/-- types.Panel.String. -/
def panelString (p : Panel) : String :=
  if p = panelRepositories then "Repositories"
  else if p = panelMetrics then "Metrics"
  else if p = panelSnapshots then "Snapshots"
  else if p = panelOperations then "Operations"
  else "Unknown"

/-- types.ForgetPolicy. -/
structure ForgetPolicy where
  keepLast : Int
  keepHourly : Int
  keepDaily : Int
  keepWeekly : Int
  keepMonthly : Int
  keepYearly : Int
  keepWithin : String
  keepTags : List String
  host : String
  paths : List String
  tags : List String
deriving Repr, DecidableEq, Inhabited

/-- types.ForgetResult. -/
structure ForgetResult where
  snapshotsToKeep : List Snapshot
  snapshotsToRemove : List Snapshot
  host : String
  paths : List String
  tags : List String
deriving Repr, DecidableEq, Inhabited

/-! ## Confirmation dialog (pkg/ui/confirmation_dialog.go)

The dialog wraps a bubbles text input; only its current value matters here,
so the input is carried as the typed string. -/

structure ConfirmationDialog where
  title : String
  message : String
  confirmationWord : String
  input : String
  width : Int
  height : Int
deriving Repr, DecidableEq, Inhabited

/-- ui.NewConfirmationDialog. -/
def newConfirmationDialog (title message confirmationWord : String) :
    ConfirmationDialog :=
  { title := title, message := message, confirmationWord := confirmationWord,
    input := "", width := 0, height := 0 }

/-- ui.ConfirmationDialog.IsConfirmed: exact equality of the typed input with
the expected confirmation word. -/
def ConfirmationDialog.isConfirmed (cd : ConfirmationDialog) : Bool :=
  cd.input == cd.confirmationWord

/-- ui.ConfirmationDialog.SetSize. -/
def ConfirmationDialog.setSize (cd : ConfirmationDialog) (w h : Int) :
    ConfirmationDialog :=
  { cd with width := w, height := h }

/-- The delegated text-input key handling (charmbracelet bubbles, an external
library): a printable key appends, backspace removes the last character,
anything else leaves the value unchanged. -/
def textInputStep (value k : String) : String :=
  if k == "backspace" then ⟨value.toList.dropLast⟩
  else if k.length = 1 then value ++ k
  else value

/-- ui.ConfirmationDialog.Update: keys go to the wrapped text input. -/
def ConfirmationDialog.update (cd : ConfirmationDialog) (k : String) :
    ConfirmationDialog :=
  { cd with input := textInputStep cd.input k }

/-! ## File browser pagination (pkg/ui/operations_panel.go) -/

structure FileBrowser where
  snapshot : Snapshot
  currentPath : String
  files : List FileNode
  selected : Int
  multiSelect : Bool
  pageSize : Int
  currentPage : Int
  width : Int
  height : Int
deriving Repr, DecidableEq, Inhabited

/-- ui.NewFileBrowser. -/
def newFileBrowser (snapshot : Snapshot) : FileBrowser :=
  { snapshot := snapshot, currentPath := "/", files := [], selected := 0,
    multiSelect := true, pageSize := 50, currentPage := 0,
    width := 0, height := 0 }

/-- ui.FileBrowser.getTotalPages. -/
def FileBrowser.getTotalPages (fb : FileBrowser) : Int :=
  if fb.files.length = 0 then 1
  else ((fb.files.length : Int) + fb.pageSize - 1) / fb.pageSize

/-- ui.FileBrowser.getFilesOnCurrentPage. -/
def FileBrowser.getFilesOnCurrentPage (fb : FileBrowser) : List FileNode :=
  let start := fb.currentPage * fb.pageSize
  let stop := min (start + fb.pageSize) (fb.files.length : Int)
  if start ≥ (fb.files.length : Int) then []
  else (fb.files.drop start.toNat).take (stop - start).toNat

/-- ui.FileBrowser.NextPage: move forward unless already on the last page. -/
def FileBrowser.nextPage (fb : FileBrowser) : FileBrowser :=
  if fb.currentPage < fb.getTotalPages - 1 then
    { fb with currentPage := fb.currentPage + 1, selected := 0 }
  else fb

/-- ui.FileBrowser.PrevPage. -/
def FileBrowser.prevPage (fb : FileBrowser) : FileBrowser :=
  if fb.currentPage > 0 then
    { fb with currentPage := fb.currentPage - 1, selected := 0 }
  else fb

/-- ui.FileBrowser.SetFiles: install a new listing, reset to page zero and
clamp page and in-page selection. -/
def FileBrowser.setFiles (fb : FileBrowser) (files : List FileNode) :
    FileBrowser :=
  let fb := { fb with files := files, currentPage := 0 }
  let totalPages := fb.getTotalPages
  let fb :=
    if fb.currentPage ≥ totalPages ∧ totalPages > 0 then
      { fb with currentPage := totalPages - 1 }
    else fb
  let fb := if fb.currentPage < 0 then { fb with currentPage := 0 } else fb
  let onPage := fb.getFilesOnCurrentPage.length
  let fb :=
    if fb.selected ≥ (onPage : Int) ∧ onPage > 0 then
      { fb with selected := (onPage : Int) - 1 }
    else fb
  if fb.selected < 0 then { fb with selected := 0 } else fb

/-- ui.FileBrowser.MoveUp. -/
def FileBrowser.moveUp (fb : FileBrowser) : FileBrowser :=
  if fb.selected > 0 then { fb with selected := fb.selected - 1 } else fb

/-- ui.FileBrowser.MoveDown. -/
def FileBrowser.moveDown (fb : FileBrowser) : FileBrowser :=
  if fb.selected < (fb.files.length : Int) - 1 then
    { fb with selected := fb.selected + 1 }
  else fb

/-- ui.FileBrowser.GetSelected. -/
def FileBrowser.getSelected (fb : FileBrowser) : Option FileNode :=
  if 0 ≤ fb.selected ∧ fb.selected < (fb.files.length : Int) then
    fb.files.get? fb.selected.toNat
  else none

/-- ui.FileBrowser.ToggleSelection. -/
def FileBrowser.toggleSelection (fb : FileBrowser) : FileBrowser :=
  if 0 ≤ fb.selected ∧ fb.selected < (fb.files.length : Int) then
    let updated :=
      match fb.files.get? fb.selected.toNat with
      | some f =>
          fb.files.set fb.selected.toNat { f with selected := !f.selected }
      | none => fb.files
    { fb with files := updated }
  else fb

/-- ui.FileBrowser.GetSelectedFiles. -/
def FileBrowser.getSelectedFiles (fb : FileBrowser) : List FileNode :=
  fb.files.filter (fun f => f.selected)

/-- ui.FileBrowser.CanGoUp. -/
def FileBrowser.canGoUp (fb : FileBrowser) : Bool :=
  fb.currentPath != "/" && fb.currentPath != ""

/-- path.Dir of the Go standard library, abstracted: the parent of the
current path, kept opaque through a marker suffix since no claim inspects
the path text. -/
def pathDir (p : String) : String := p ++ "/.."

/-- ui.FileBrowser.GoUp. -/
def FileBrowser.goUp (fb : FileBrowser) : FileBrowser :=
  if fb.canGoUp then
    let d := pathDir fb.currentPath
    { fb with currentPath := if d == "." then "/" else d }
  else fb

/-- ui.FileBrowser.EnterDirectory: returns the updated browser, the path and
whether a directory was entered. -/
def FileBrowser.enterDirectory (fb : FileBrowser) :
    FileBrowser × String × Bool :=
  match fb.getSelected with
  | some f =>
      if f.isDir then ({ fb with currentPath := f.path }, f.path, true)
      else (fb, fb.currentPath, false)
  | none => (fb, fb.currentPath, false)

/-! ## Snapshot panel: filter engine and scrolling viewport
(pkg/ui/snapshot_panel.go) -/

structure SnapshotPanel where
  snapshots : List Snapshot
  filteredSnapshots : List Snapshot
  selected : Int
  width : Int
  height : Int
  scrollOffset : Int
  filterActive : Bool
  filterText : String
  filterTag : String
  filterHost : String
deriving Repr, DecidableEq, Inhabited

/-- ui.NewSnapshotPanel. -/
def newSnapshotPanel : SnapshotPanel :=
  { snapshots := [], filteredSnapshots := [], selected := 0,
    width := 0, height := 0, scrollOffset := 0,
    filterActive := false, filterText := "", filterTag := "", filterHost := "" }

/-- ui.SnapshotPanel.matchesFilter: tag and host are conjunctive substring
predicates; the free-text predicate is an OR over id, short id, paths and
tags; all matching is case-insensitive. -/
def SnapshotPanel.matchesFilter (p : SnapshotPanel) (snap : Snapshot) : Bool :=
  if p.filterTag != "" &&
      !(snap.tags.any fun tag =>
        strContains (goToLower tag) (goToLower p.filterTag)) then
    false
  else if p.filterHost != "" &&
      !(strContains (goToLower snap.hostname) (goToLower p.filterHost)) then
    false
  else if p.filterText != "" then
    strContains (goToLower snap.id) (goToLower p.filterText) ||
    strContains (goToLower snap.shortID) (goToLower p.filterText) ||
    (snap.paths.any fun path =>
      strContains (goToLower path) (goToLower p.filterText)) ||
    (snap.tags.any fun tag =>
      strContains (goToLower tag) (goToLower p.filterText))
  else true

/-- ui.SnapshotPanel.ApplyFilter. -/
def SnapshotPanel.applyFilter (p : SnapshotPanel) : SnapshotPanel :=
  if !p.filterActive ||
      (p.filterText == "" && p.filterTag == "" && p.filterHost == "") then
    { p with filteredSnapshots := p.snapshots }
  else
    let fs := p.snapshots.filter (fun s => p.matchesFilter s)
    let p := { p with filteredSnapshots := fs }
    if p.selected ≥ (fs.length : Int) ∧ 0 < fs.length then
      { p with selected := 0 }
    else p

/-- ui.SnapshotPanel.SetSnapshots. -/
def SnapshotPanel.setSnapshots (p : SnapshotPanel) (snaps : List Snapshot) :
    SnapshotPanel :=
  let p := SnapshotPanel.applyFilter { p with snapshots := snaps }
  let n := p.filteredSnapshots.length
  if p.selected ≥ (n : Int) ∧ 0 < n then { p with selected := (n : Int) - 1 }
  else p

/-- ui.SnapshotPanel.SetFilter. -/
def SnapshotPanel.setFilter (p : SnapshotPanel) (text : String) :
    SnapshotPanel :=
  SnapshotPanel.applyFilter { p with filterText := text, filterActive := true }

/-- ui.SnapshotPanel.SetTagFilter. -/
def SnapshotPanel.setTagFilter (p : SnapshotPanel) (tag : String) :
    SnapshotPanel :=
  SnapshotPanel.applyFilter { p with filterTag := tag, filterActive := true }

/-- ui.SnapshotPanel.SetHostFilter. -/
def SnapshotPanel.setHostFilter (p : SnapshotPanel) (host : String) :
    SnapshotPanel :=
  SnapshotPanel.applyFilter { p with filterHost := host, filterActive := true }

/-- ui.SnapshotPanel.ClearFilter. -/
def SnapshotPanel.clearFilter (p : SnapshotPanel) : SnapshotPanel :=
  SnapshotPanel.applyFilter
    { p with
             filterActive := false, filterText := "", filterTag := "",
             filterHost := "" }

/-- ui.SnapshotPanel.IsFilterActive. -/
def SnapshotPanel.isFilterActive (p : SnapshotPanel) : Bool :=
  p.filterActive &&
    (p.filterText != "" || p.filterTag != "" || p.filterHost != "")

/-- The visible-line budget computed inside ui.SnapshotPanel.MoveDown:
height minus the border and title overhead, at least one line. -/
def SnapshotPanel.visibleLines (p : SnapshotPanel) : Int :=
  if p.height - 6 < 1 then 1 else p.height - 6

/-- ui.SnapshotPanel.MoveUp. -/
def SnapshotPanel.moveUp (p : SnapshotPanel) : SnapshotPanel :=
  if p.selected > 0 then
    let p := { p with selected := p.selected - 1 }
    if p.selected < p.scrollOffset then { p with scrollOffset := p.selected }
    else p
  else p

/-- ui.SnapshotPanel.MoveDown. -/
def SnapshotPanel.moveDown (p : SnapshotPanel) : SnapshotPanel :=
  if p.selected < (p.filteredSnapshots.length : Int) - 1 then
    let p := { p with selected := p.selected + 1 }
    if p.selected ≥ p.scrollOffset + p.visibleLines then
      { p with scrollOffset := p.selected - p.visibleLines + 1 }
    else p
  else p

/-- ui.SnapshotPanel.GetSelected. -/
def SnapshotPanel.getSelected (p : SnapshotPanel) : Option Snapshot :=
  if 0 ≤ p.selected ∧ p.selected < (p.filteredSnapshots.length : Int) then
    p.filteredSnapshots.get? p.selected.toNat
  else none

/-! ## Restic client (pkg/restic/client.go) -/

/-- restic.BackupMessage: one message on the backup update channel. -/
structure BackupMessage where
  progress : Option BackupProgress
  summary : Option BackupSummary
  errmsg : Option String
deriving Repr, DecidableEq, Inhabited

/-- restic.RestoreMessage: one message on the restore update channel. -/
structure RestoreMessage where
  progress : Option RestoreProgress
  summary : Option RestoreSummary
  errmsg : Option String
deriving Repr, DecidableEq, Inhabited

/-- Client.buildEnv: the environment variables the client adds for every
restic invocation (appended to the inherited parent environment). -/
def buildEnv (c : RepositoryConfig) : List String :=
  let env := ["RESTIC_REPOSITORY=" ++ c.path]
  let env :=
    if c.passwordFile != "" then
      env ++ ["RESTIC_PASSWORD_FILE=" ++ c.passwordFile]
    else env
  if c.passwordCommand != "" then
    env ++ ["RESTIC_PASSWORD_COMMAND=" ++ c.passwordCommand]
  else env

/-- Outcome of setting up and starting the subprocess in BackupWithChannel /
RestoreWithChannel: each failure point before the read loop, or success. -/
inductive SpawnOutcome
  | stdoutPipeErr (e : String)
  | stderrPipeErr (e : String)
  | startErr (e : String)
  | started
deriving Repr, DecidableEq

/-- The classification BackupWithChannel applies to one stdout line: the line
is speculatively JSON-parsed and dispatched on its message_type field; a line
that fails to parse, carries another type, or whose payload fails to parse is
skipped. -/
inductive BackupLine
  | status (p : BackupProgress)
  | summary (s : BackupSummary)
  | skipped
deriving Repr, DecidableEq

/-- The whole observable outcome of one channel session: the messages sent,
in order, and whether the channel was closed at the end. -/
structure BackupTrace where
  events : List BackupMessage
  closed : Bool
deriving Repr, DecidableEq

structure RestoreTrace where
  events : List RestoreMessage
  closed : Bool
deriving Repr, DecidableEq

/-- The scanner loop of Client.BackupWithChannel: status lines become
progress messages, summary lines become summary messages, skipped lines
produce nothing. -/
def backupEmit : List BackupLine → List BackupMessage
  | [] => []
  | .status p :: rest =>
      { progress := some p, summary := none, errmsg := none } :: backupEmit rest
  | .summary s :: rest =>
      { progress := none, summary := some s, errmsg := none } :: backupEmit rest
  | .skipped :: rest => backupEmit rest

/-- Client.BackupWithChannel as a function of the subprocess interaction:
the spawn outcome, the classified stdout lines, an optional scanner error,
the captured stderr text, and the optional non-zero-exit error from Wait.
The channel is closed on every path by the deferred close. -/
def backupWithChannel (spawn : SpawnOutcome) (lines : List BackupLine)
    (scanErr : Option String) (stderrText : String)
    (waitErr : Option String) : BackupTrace :=
  match spawn with
  | .stdoutPipeErr e =>
      ⟨[⟨none, none, some ("failed to create stdout pipe: " ++ e)⟩], true⟩
  | .stderrPipeErr e =>
      ⟨[⟨none, none, some ("failed to create stderr pipe: " ++ e)⟩], true⟩
  | .startErr e =>
      ⟨[⟨none, none, some ("failed to start backup: " ++ e)⟩], true⟩
  | .started =>
      let msgs := backupEmit lines
      match scanErr with
      | some e =>
          ⟨msgs ++ [⟨none, none,
            some ("error reading backup output: " ++ e)⟩], true⟩
      | none =>
          match waitErr with
          | some e =>
              ⟨msgs ++ [⟨none, none,
                some ("backup failed: " ++ e ++ " (stderr: " ++ stderrText
                  ++ ")")⟩], true⟩
          | none => ⟨msgs, true⟩

/-- The synthesized restore progress record: only its message type is set. -/
def syntheticRestoreProgress : RestoreProgress :=
  { messageType := "status", percentDone := 0, totalFiles := 0,
    filesRestored := 0, totalBytes := 0, bytesRestored := 0,
    secondsElapsed := 0, secondsRemaining := 0 }

/-- The scanner loop of Client.RestoreWithChannel: restic restore emits plain
text, and any line containing the substring "restoring" becomes a progress
message with message type "status". -/
def restoreEmit : List String → List RestoreMessage
  | [] => []
  | line :: rest =>
      if strContains line "restoring" then
        { progress := some syntheticRestoreProgress,
          summary := none, errmsg := none } :: restoreEmit rest
      else restoreEmit rest

/-- The summary record RestoreWithChannel synthesizes on clean exit: only
its message type is set. -/
def syntheticRestoreSummary : RestoreSummary :=
  { messageType := "summary", totalFiles := 0, totalBytes := 0,
    secondsElapsed := 0 }

/-- Client.RestoreWithChannel as a function of the subprocess interaction;
on clean exit the adapter synthesizes a terminal summary of its own. -/
def restoreWithChannel (spawn : SpawnOutcome) (lines : List String)
    (scanErr : Option String) (stderrText : String)
    (waitErr : Option String) : RestoreTrace :=
  match spawn with
  | .stdoutPipeErr e =>
      ⟨[⟨none, none, some ("failed to create stdout pipe: " ++ e)⟩], true⟩
  | .stderrPipeErr e =>
      ⟨[⟨none, none, some ("failed to create stderr pipe: " ++ e)⟩], true⟩
  | .startErr e =>
      ⟨[⟨none, none, some ("failed to start restore: " ++ e)⟩], true⟩
  | .started =>
      let msgs := restoreEmit lines
      match scanErr with
      | some e =>
          ⟨msgs ++ [⟨none, none,
            some ("error reading restore output: " ++ e)⟩], true⟩
      | none =>
          match waitErr with
          | some e =>
              ⟨msgs ++ [⟨none, none,
                some ("restore failed: " ++ e ++ " (stderr: " ++ stderrText
                  ++ ")")⟩], true⟩
          | none =>
              ⟨msgs ++ [⟨none, some syntheticRestoreSummary, none⟩], true⟩

/-- A terminal event of a backup session: a summary or an error message. -/
def BackupMessage.isTerminal (m : BackupMessage) : Bool :=
  m.summary.isSome || m.errmsg.isSome

/-- A terminal event of a restore session. -/
def RestoreMessage.isTerminal (m : RestoreMessage) : Bool :=
  m.summary.isSome || m.errmsg.isSome

/-! ## Configuration loading and validation (pkg/config) -/

/-- The raw YAML shape of one repository entry, as far as config.Load
inspects it before unmarshalling: the set of keys present and the optional
name value used in the diagnostic. -/
structure RawRepo where
  keys : List String
  name : Option String
deriving Repr, DecidableEq, Inhabited

/-- The raw parse of a config file: the raw repository entries together with
the typed configuration the same bytes unmarshal to. -/
structure RawConfig where
  repositories : List RawRepo
  parsed : ResticConfig
deriving Repr, DecidableEq, Inhabited

/-- The deprecated-password scan of config.Load, over the indexed raw
repository entries: the first entry carrying a literal "password" key is
rejected (the long migration guidance of the source message is elided). -/
def scanDeprecatedPassword : Nat → List RawRepo → Option String
  | _, [] => none
  | i, r :: rest =>
      if r.keys.contains "password" then
        some ("repository " ++ toString i ++ " ("
          ++ r.name.getD "unknown" ++ ") uses deprecated password field")
      else scanDeprecatedPassword (i + 1) rest

/-- config.Load on an already-read, already-YAML-parsed file: the filesystem
read and YAML decode themselves are outside the pure core, so the function
starts from the raw parse. -/
def load (raw : RawConfig) : Except String ResticConfig :=
  match scanDeprecatedPassword 0 raw.repositories with
  | some e => .error e
  | none => .ok raw.parsed

/-- Result of os.Stat on a path: missing, or present with permission bits. -/
inductive StatResult
  | missing
  | present (perm : Nat)
deriving Repr, DecidableEq

/-- config.validatePasswordFile, with the filesystem supplied as a stat
oracle. -/
def validatePasswordFile (stat : String → StatResult) (path : String) :
    Except String Unit :=
  match stat path with
  | .missing => .error ("password file does not exist: " ++ path)
  | .present perm =>
      if perm ≠ 0o400 ∧ perm ≠ 0o600 then
        .error "password file permissions are insecure, should be 0400 or 0600"
      else .ok ()

/-- config.validatePasswordCommand: the pure checks for shell
metacharacters and dangerous command names. -/
def validatePasswordCommand (cmd : String) : Except String Unit :=
  let dangerousChars := [";", "|", "&", "\x60", "$", "(", ")", "<", ">",
    "\n", "\r"]
  match dangerousChars.find? (fun c => strContains cmd c) with
  | some c => .error ("password command contains dangerous character " ++ c)
  | none =>
      let dangerousCommands := ["rm", "del", "format", "mkfs", "dd", "shred",
        "wget", "curl"]
      match dangerousCommands.find?
          (fun bad => strContains (goToLower cmd) bad) with
      | some bad =>
          .error ("password command contains potentially dangerous command "
            ++ bad)
      | none => .ok ()

/-- config.validateRepositoryConfig: exactly one of password_file and
password_command must be configured, and the configured one must pass its
own validation. -/
def validateRepositoryConfig (stat : String → StatResult)
    (repo : RepositoryConfig) : Except String Unit :=
  let passwordMethods :=
    (if repo.passwordFile != "" then 1 else 0) +
    (if repo.passwordCommand != "" then 1 else 0)
  if passwordMethods = 0 then
    .error "no password method specified (password_file or password_command required)"
  else if passwordMethods > 1 then
    .error "multiple password methods specified, use only one of: password_file or password_command"
  else
    match (if repo.passwordFile != "" then
            validatePasswordFile stat repo.passwordFile
           else .ok ()) with
    | .error e => .error ("password_file validation failed: " ++ e)
    | .ok _ =>
        match (if repo.passwordCommand != "" then
                validatePasswordCommand repo.passwordCommand
               else .ok ()) with
        | .error e => .error ("password_command validation failed: " ++ e)
        | .ok _ => .ok ()

/-- config.validateConfigFilePermissions, via the stat oracle. -/
def validateConfigFilePermissions (stat : String → StatResult)
    (path : String) : Except String Unit :=
  match stat path with
  | .missing => .error "cannot stat config file"
  | .present perm =>
      if perm ≠ 0o600 then
        .error "config file permissions should be 0600 for security"
      else .ok ()

/-- config.ValidateConfig. -/
def validateConfig (stat : String → StatResult) (config : ResticConfig)
    (configPath : String) : Except String Unit :=
  match validateConfigFilePermissions stat configPath with
  | .error e => .error ("config file security check failed: " ++ e)
  | .ok _ =>
      match config.repositories.find?
          (fun r => !(validateRepositoryConfig stat r).isOk) with
      | some r => .error ("repository (" ++ r.name ++ ") validation failed")
      | none => .ok ()

/-- config.LoadAndValidate: parse, then validate; an error on either step
means no configuration object is produced, so no client is ever built from
it and no subprocess is spawned. -/
def loadAndValidate (stat : String → StatResult) (raw : RawConfig)
    (path : String) : Except String ResticConfig :=
  match load raw with
  | .error e => .error e
  | .ok config =>
      match validateConfig stat config path with
      | .error e => .error ("config validation failed: " ++ e)
      | .ok _ => .ok config

/-! ## Operations panel log (pkg/ui/operations_panel.go) -/

/-- ui.LogEntry; the wall-clock timestamp is dropped, no claim reads it. -/
structure LogEntry where
  level : String
  message : String
deriving Repr, DecidableEq, Inhabited

structure OperationsPanel where
  logs : List LogEntry
  backupProgress : Option BackupProgress
  backupInProgress : Bool
deriving Repr, DecidableEq, Inhabited

/-- ui.NewOperationsPanel. -/
def newOperationsPanel : OperationsPanel :=
  { logs := [], backupProgress := none, backupInProgress := false }

/-- ui.OperationsPanel.AddLog: append, keeping only the last 100 entries. -/
def OperationsPanel.addLog (p : OperationsPanel) (level message : String) :
    OperationsPanel :=
  let logs := p.logs ++ [⟨level, message⟩]
  { p with
      logs :=
        if logs.length > 100 then logs.drop (logs.length - 100) else logs }

def OperationsPanel.info (p : OperationsPanel) (message : String) :
    OperationsPanel := p.addLog "info" message

def OperationsPanel.dimmed (p : OperationsPanel) (message : String) :
    OperationsPanel := p.addLog "dimmed" message

def OperationsPanel.success (p : OperationsPanel) (message : String) :
    OperationsPanel := p.addLog "success" message

def OperationsPanel.warning (p : OperationsPanel) (message : String) :
    OperationsPanel := p.addLog "warning" message

def OperationsPanel.logError (p : OperationsPanel) (message : String) :
    OperationsPanel := p.addLog "error" message

/-- ui.OperationsPanel.SetBackupProgress. -/
def OperationsPanel.setBackupProgress (p : OperationsPanel)
    (progress : BackupProgress) : OperationsPanel :=
  { p with backupProgress := some progress, backupInProgress := true }

/-- ui.OperationsPanel.ClearBackupProgress. -/
def OperationsPanel.clearBackupProgress (p : OperationsPanel) :
    OperationsPanel :=
  { p with backupProgress := none, backupInProgress := false }

/-! ## Repository and metrics panels (pkg/ui) -/

structure RepositoryPanel where
  repositories : List Repository
  selected : Int
  width : Int
  height : Int
  scrollOffset : Int
deriving Repr, DecidableEq, Inhabited

/-- ui.NewRepositoryPanel. -/
def newRepositoryPanel : RepositoryPanel :=
  { repositories := [], selected := 0, width := 0, height := 0,
    scrollOffset := 0 }

/-- ui.RepositoryPanel.SetRepositories. -/
def RepositoryPanel.setRepositories (p : RepositoryPanel)
    (repos : List Repository) : RepositoryPanel :=
  let p := { p with repositories := repos }
  let p :=
    if p.selected ≥ (repos.length : Int) ∧ 0 < repos.length then
      { p with selected := (repos.length : Int) - 1 }
    else p
  { p with scrollOffset := 0 }

/-- The visible-row budget computed inside ui.RepositoryPanel.MoveDown:
each repository takes about three lines. -/
def RepositoryPanel.visibleRepos (p : RepositoryPanel) : Int :=
  if (p.height - 6) / 3 < 1 then 1 else (p.height - 6) / 3

/-- ui.RepositoryPanel.MoveUp. -/
def RepositoryPanel.moveUp (p : RepositoryPanel) : RepositoryPanel :=
  if p.selected > 0 then
    let p := { p with selected := p.selected - 1 }
    if p.selected < p.scrollOffset then { p with scrollOffset := p.selected }
    else p
  else p

/-- ui.RepositoryPanel.MoveDown. -/
def RepositoryPanel.moveDown (p : RepositoryPanel) : RepositoryPanel :=
  if p.selected < (p.repositories.length : Int) - 1 then
    let p := { p with selected := p.selected + 1 }
    if p.selected ≥ p.scrollOffset + p.visibleRepos then
      { p with scrollOffset := p.selected - p.visibleRepos + 1 }
    else p
  else p

/-- ui.RepositoryPanel.GetSelected. -/
def RepositoryPanel.getSelected (p : RepositoryPanel) : Option Repository :=
  if 0 ≤ p.selected ∧ p.selected < (p.repositories.length : Int) then
    p.repositories.get? p.selected.toNat
  else none

/-- ui.RepoMetricsPanel, restricted to the repository reference the model
transitions set; its rendering fields are not part of the core. -/
structure RepoMetricsPanel where
  repository : Option Repository
deriving Repr, DecidableEq, Inhabited

/-- ui.RepoMetricsPanel.SetRepository. -/
def RepoMetricsPanel.setRepository (p : RepoMetricsPanel)
    (r : Option Repository) : RepoMetricsPanel :=
  { p with repository := r }

/-! ## Forget preview (pkg/ui/repo_metrics_panel.go) -/

structure ForgetPreview where
  results : List ForgetResult
  policy : ForgetPolicy
  width : Int
  height : Int
  scrollOffset : Int
deriving Repr, DecidableEq, Inhabited

/-- ui.NewForgetPreview. -/
def newForgetPreview (results : List ForgetResult) (policy : ForgetPolicy) :
    ForgetPreview :=
  { results := results, policy := policy, width := 0, height := 0,
    scrollOffset := 0 }

/-- ui.ForgetPreview.SetSize. -/
def ForgetPreview.setSize (fp : ForgetPreview) (w h : Int) : ForgetPreview :=
  { fp with width := w, height := h }

/-- ui.ForgetPreview.GetTotalToRemove. -/
def ForgetPreview.getTotalToRemove (fp : ForgetPreview) : Nat :=
  (fp.results.map (fun r => r.snapshotsToRemove.length)).sum

/-! ## Forms

The backup, restore and repository forms are modal input widgets whose
field-editing source is outside the analyzed core; they are modelled by the
accessors Model.Update reads from them. -/

/-- Modelled from the spec: the configure-backup form (its field-editing
source file is not part of the analyzed sources); the model reads its
validity and its path, tag and exclude lists. -/
structure BackupForm where
  valid : Bool
  paths : List String
  tags : List String
  exclude : List String
  width : Int
  height : Int
deriving Repr, DecidableEq, Inhabited

/-- Modelled from the spec: the configure-restore form (its field-editing
source file is not part of the analyzed sources); the model reads its
validity, target and include-path list. -/
structure RestoreForm where
  snapshot : Snapshot
  valid : Bool
  target : String
  includePaths : List String
  width : Int
  height : Int
deriving Repr, DecidableEq, Inhabited

/-- Modelled from the spec: ui.NewRestoreForm creates the form for the
selected snapshot with empty fields. -/
def newRestoreForm (s : Snapshot) : RestoreForm :=
  { snapshot := s, valid := false, target := "", includePaths := [],
    width := 0, height := 0 }

def RestoreForm.setSize (f : RestoreForm) (w h : Int) : RestoreForm :=
  { f with width := w, height := h }

def RestoreForm.setIncludePaths (f : RestoreForm) (paths : List String) :
    RestoreForm :=
  { f with includePaths := paths }

/-! ## Reactive state machine (pkg/model) -/

/-- The messages of model/messages.go that drive the transitions analyzed
here; key presses arrive as their bubbletea string form. On channel-borne
progress messages, the non-nil Updates channel is tracked as a Boolean. -/
inductive Msg
  | repositoriesLoaded (repositories : List Repository)
  | snapshotsLoaded (snapshots : List Snapshot) (errmsg : Option String)
      (filteredCount : Int) (cmdLogName cmdLogPath : String)
  | filesLoaded (files : List FileNode) (errmsg : Option String)
  | backupProgress (progress : Option BackupProgress) (updatesOpen : Bool)
  | backupSummary (summary : Option BackupSummary) (errmsg : Option String)
  | restoreProgress (progress : Option RestoreProgress) (updatesOpen : Bool)
  | restoreSummary (summary : Option RestoreSummary) (errmsg : Option String)
  | forgetDryRun (results : List ForgetResult) (policy : ForgetPolicy)
      (errmsg : Option String)
  | forgetComplete (errmsg : Option String)
  | pruneDryRun (output : String) (errmsg : Option String)
  | pruneComplete (errmsg : Option String)
  | scannedRepos (foundRepos : List RepositoryConfig)
  | cacheCleanup (output : String) (errmsg : Option String)
  | unlock (output : String) (errmsg : Option String)
  | repoRemoved (repoName : String) (errmsg : Option String)
  | key (k : String)
deriving Repr, DecidableEq

/-- The follow-up asynchronous action a transition returns (the tea.Cmd):
each constructor names the background command the source builds there;
`delegated` stands for a command produced by a widget outside the core. -/
inductive Cmd
  | none
  | quit
  | loadRepositories
  | loadSnapshots
  | loadFiles
  | executeBackup (opts : BackupOptions)
  | executeRestore (opts : RestoreOptions)
  | listenForBackupUpdates
  | listenForRestoreUpdates
  | scanForRepositories
  | cleanupCache
  | unlockRepository
  | removeRepository
  | batch (first second : Cmd)
  | delegated
deriving Repr, DecidableEq

/-- model.Model: the single application state value. The repo form is kept
as a Boolean visibility flag only (its widget state is outside the core);
forms and dialogs created on demand are Options, mirroring nilable Go
pointers. -/
structure Model where
  width : Int
  height : Int
  ready : Bool
  tooSmall : Bool
  config : ResticConfig
  activePanel : Panel
  repositories : List Repository
  currentRepoIndex : Int
  loadingSnapshots : Bool
  loadingRepositories : Bool
  repoPanel : RepositoryPanel
  metricsPanel : RepoMetricsPanel
  snapPanel : SnapshotPanel
  opsPanel : OperationsPanel
  showHelp : Bool
  showRepoForm : Bool
  showBackupForm : Bool
  backupForm : BackupForm
  backupInProgress : Bool
  currentBackupProgress : Option BackupProgress
  showRestoreForm : Bool
  restoreForm : Option RestoreForm
  restoreInProgress : Bool
  currentRestoreProgress : Option RestoreProgress
  filterInputActive : Bool
  filterInputText : String
  showFileBrowser : Bool
  fileBrowser : Option FileBrowser
  showFoundRepos : Bool
  foundRepos : List RepositoryConfig
  selectedFound : Int
  showForgetForm : Bool
  showForgetPreview : Bool
  forgetPreview : Option ForgetPreview
  showForgetConfirm : Bool
  forgetConfirmDialog : Option ConfirmationDialog
  forgetPreviewResults : List ForgetResult
  forgetPolicy : ForgetPolicy
  showPruneConfirm : Bool
  pruneConfirmDialog : Option ConfirmationDialog
  pruneDryRunOutput : String
  showRemoveConfirm : Bool
  removeConfirmDialog : Option ConfirmationDialog
  repoToRemove : String
deriving Repr, DecidableEq, Inhabited

/-- model.Model.GetSelected: index of the panel-selected repository inside
the loaded repository list, defaulting to 0. -/
def Model.getSelectedIdx (m : Model) : Int :=
  match m.repoPanel.getSelected with
  | some repo =>
      match m.repositories.findIdx? (fun r => r.name == repo.name) with
      | some i => (i : Int)
      | none => 0
  | none => 0

/-- model.Model.loadSnapshotsWithMessage: flag the load, log, and return the
snapshot-listing command. -/
def Model.loadSnapshotsWithMessage (m : Model) : Model × Cmd :=
  ({ m with
      loadingSnapshots := true,
      opsPanel := m.opsPanel.info "Loading snapshots..." }, .loadSnapshots)

/-- The visual separator line used by model.Model.logSelectedSnapshot. -/
def separatorLine : String :=
  "─────────────────────────────────────────────────────────"

/-- model.Model.logSelectedSnapshot: append the selected snapshot details to
the operations log (timestamp formatting is abstracted to toString). -/
def Model.logSelectedSnapshot (m : Model) : Model :=
  match m.snapPanel.getSelected with
  | none => m
  | some snapshot =>
      let p := m.opsPanel.success separatorLine
      let p := p.success ("Snapshot: " ++ snapshot.shortID)
      let p := p.dimmed ("Full ID: " ++ snapshot.id)
      let p := p.info ("Created: " ++ toString snapshot.time)
      let p := p.info ("Hostname: " ++ snapshot.hostname)
      let p :=
        if snapshot.paths.length > 0 then
          p.info ("Paths: " ++ String.intercalate ", " snapshot.paths)
        else p
      let p :=
        if snapshot.tags.length > 0 then
          p.info ("Tags: " ++ String.intercalate ", " snapshot.tags)
        else p
      let p :=
        if snapshot.username != "" then
          p.dimmed ("User: " ++ snapshot.username)
        else p
      let p := p.dimmed ("Time ago: " ++ toString snapshot.time)
      { m with opsPanel := p.success separatorLine }

/-- The file-browser key handling inside Model.Update; the Go switch has no
default case, so an unhandled key falls through to the handlers below it,
returned here as `none`. -/
def Model.fileBrowserKey (m : Model) (fb : FileBrowser) (k : String) :
    Option (Model × Cmd) :=
  if k == "esc" then
    some ({ m with
        showFileBrowser := false,
        opsPanel := m.opsPanel.info "Closed file browser" }, .none)
  else if k == "j" || k == "down" then
    some ({ m with fileBrowser := some fb.moveDown }, .none)
  else if k == "k" || k == "up" then
    some ({ m with fileBrowser := some fb.moveUp }, .none)
  else if k == "h" || k == "left" then
    if fb.canGoUp then
      some ({ m with fileBrowser := some fb.goUp }, .loadFiles)
    else some (m, .none)
  else if k == "n" || k == "pgdown" then
    some ({ m with fileBrowser := some fb.nextPage }, .none)
  else if k == "p" || k == "pgup" then
    some ({ m with fileBrowser := some fb.prevPage }, .none)
  else if k == "l" || k == "right" || k == "enter" then
    let entered := fb.enterDirectory
    if entered.2.2 then
      some ({ m with
          fileBrowser := some entered.1,
          opsPanel := m.opsPanel.info
            ("Navigating to " ++ entered.2.1 ++ "...") }, .loadFiles)
    else some (m, .none)
  else if k == " " || k == "space" then
    some ({ m with fileBrowser := some fb.toggleSelection }, .none)
  else if k == "r" then
    let selectedFiles := fb.getSelectedFiles
    if selectedFiles.length = 0 then
      some ({ m with
          opsPanel := m.opsPanel.warning
            "No files selected - press Space to select files" }, .none)
    else
      let paths := selectedFiles.map (fun f => f.path)
      let rf := (newRestoreForm fb.snapshot).setSize
        (m.width * 2 / 3) (m.height * 2 / 3)
      let rf := rf.setIncludePaths paths
      some ({ m with
          restoreForm := some rf, showRestoreForm := true,
          showFileBrowser := false,
          opsPanel := m.opsPanel.info
            ("Restoring " ++ toString paths.length ++ " selected files...") },
        .none)
  else none

/-- The found-repositories key handling inside Model.Update; like the file
browser switch, unhandled keys fall through (`none`). -/
def Model.foundReposKey (m : Model) (k : String) : Option (Model × Cmd) :=
  if k == "esc" then
    some ({ m with
        showFoundRepos := false, foundRepos := [],
        selectedFound := 0,
        opsPanel := m.opsPanel.info "Cancelled repository selection" }, .none)
  else if k == "j" || k == "down" then
    some ((if m.selectedFound < (m.foundRepos.length : Int) - 1 then
        { m with selectedFound := m.selectedFound + 1 }
      else m), .none)
  else if k == "k" || k == "up" then
    some ((if m.selectedFound > 0 then
        { m with selectedFound := m.selectedFound - 1 }
      else m), .none)
  else if k == "enter" then
    if 0 ≤ m.selectedFound ∧ m.selectedFound < (m.foundRepos.length : Int) then
      let selectedRepo := m.foundRepos.getD m.selectedFound.toNat default
      some ({ m with
          showFoundRepos := false, foundRepos := [],
          selectedFound := 0, showRepoForm := true,
          opsPanel := m.opsPanel.info
            ("Adding repository: " ++ selectedRepo.name) }, .none)
    else some (m, .none)
  else none

/-- The final key switch of Model.Update, reached when no modal consumed the
key; an unmatched key reaches the trailing return (no transition). -/
def Model.mainKeySwitch (m : Model) (k : String) : Model × Cmd :=
  if k == "ctrl+c" || k == "q" then (m, .quit)
  else if k == "?" then ({ m with showHelp := true }, .none)
  else if k == "tab" || k == "l" || k == "right" then
    ({ m with activePanel := (m.activePanel + 1) % 4 }, .none)
  else if k == "shift+tab" || k == "h" || k == "left" then
    ({ m with activePanel := (m.activePanel + 3) % 4 }, .none)
  else if k == "j" || k == "down" then
    if m.activePanel = panelRepositories then
      let m := { m with repoPanel := m.repoPanel.moveDown }
      let m := { m with currentRepoIndex := m.getSelectedIdx }
      let m :=
        if m.currentRepoIndex < (m.repositories.length : Int) then
          { m with
              metricsPanel := m.metricsPanel.setRepository
                (m.repositories.get? m.currentRepoIndex.toNat) }
        else m
      m.loadSnapshotsWithMessage
    else if m.activePanel = panelSnapshots then
      let m := { m with snapPanel := m.snapPanel.moveDown }
      (m.logSelectedSnapshot, .none)
    else (m, .none)
  else if k == "k" || k == "up" then
    if m.activePanel = panelRepositories then
      let m := { m with repoPanel := m.repoPanel.moveUp }
      let m := { m with currentRepoIndex := m.getSelectedIdx }
      let m :=
        if m.currentRepoIndex < (m.repositories.length : Int) then
          { m with
              metricsPanel := m.metricsPanel.setRepository
                (m.repositories.get? m.currentRepoIndex.toNat) }
        else m
      m.loadSnapshotsWithMessage
    else if m.activePanel = panelSnapshots then
      let m := { m with snapPanel := m.snapPanel.moveUp }
      (m.logSelectedSnapshot, .none)
    else (m, .none)
  else if k == "enter" then
    if m.activePanel = panelRepositories then m.loadSnapshotsWithMessage
    else if m.activePanel = panelSnapshots then
      match m.snapPanel.getSelected with
      | some selectedSnapshot =>
          let fb := { newFileBrowser selectedSnapshot with
            width := m.width * 2 / 3, height := m.height * 2 / 3 }
          ({ m with
              fileBrowser := some fb, showFileBrowser := true,
              opsPanel := m.opsPanel.info
                ("Browsing snapshot " ++ selectedSnapshot.shortID ++ "...") },
            .loadFiles)
      | none => (m, .none)
    else (m, .none)
  else if k == "a" then
    if m.activePanel = panelRepositories then
      ({ m with
          showRepoForm := true,
          opsPanel := m.opsPanel.info "Add new repository" }, .none)
    else (m, .none)
  else if k == "s" then
    if m.activePanel = panelRepositories then
      ({ m with opsPanel := m.opsPanel.info "Scanning for repositories..." },
        .scanForRepositories)
    else (m, .none)
  else if k == "r" then
    let m := { m with
      opsPanel :=
        (m.opsPanel.info "Refreshing repositories and snapshots...").dimmed
        "Reloading configuration and rescanning repository stats" }
    let stepped := m.loadSnapshotsWithMessage
    (stepped.1, .batch .loadRepositories stepped.2)
  else if k == "C" then
    if m.currentRepoIndex ≥ (m.repositories.length : Int) then
      ({ m with
          opsPanel := m.opsPanel.warning
            "No repository selected for cache cleanup" }, .none)
    else
      let repo := m.repositories.getD m.currentRepoIndex.toNat default
      ({ m with
          opsPanel :=
            (m.opsPanel.info
            ("Running cache cleanup for " ++ repo.name ++ "...")).dimmed
            ("Command: restic -r " ++ repo.path ++ " cache --cleanup") },
        .cleanupCache)
  else if k == "u" then
    if m.currentRepoIndex ≥ (m.repositories.length : Int) then
      ({ m with
          opsPanel := m.opsPanel.warning
            "No repository selected for unlock" }, .none)
    else
      let repo := m.repositories.getD m.currentRepoIndex.toNat default
      ({ m with
          opsPanel :=
            (((m.opsPanel.info
            ("Unlocking repository " ++ repo.name ++ "...")).dimmed
            ("Removing stale locks from: " ++ repo.path)).dimmed
            ("Command: restic -r " ++ repo.path ++ " unlock")) },
        .unlockRepository)
  else if k == "x" then
    if m.currentRepoIndex ≥ (m.repositories.length : Int) then
      ({ m with
          opsPanel := m.opsPanel.warning
            "No repository selected to remove" }, .none)
    else
      let repo := m.repositories.getD m.currentRepoIndex.toNat default
      let dialog := (newConfirmationDialog "REMOVE REPOSITORY"
        ("Remove " ++ repo.name ++ " from LazyRestic?\n\nPath: " ++ repo.path
          ++ "\n\nThis will only remove it from the LazyRestic configuration.\nThe repository files will NOT be deleted from disk.")
        "yes").setSize (m.width * 3 / 4) (m.height * 3 / 4)
      let p := (m.opsPanel.success separatorLine).info
        ("Removal requested for repository: " ++ repo.name)
      let p := (p.dimmed ("Path: " ++ repo.path)).warning
        "Type yes to confirm removal from configuration"
      ({ m with
          repoToRemove := repo.name,
          removeConfirmDialog := some dialog, showRemoveConfirm := true,
          opsPanel := p.success separatorLine }, .none)
  else if k == "b" then
    if !m.backupInProgress && m.repositories.length > 0 then
      ({ m with showBackupForm := true }, .none)
    else if m.backupInProgress then
      ({ m with opsPanel := m.opsPanel.warning "Backup already in progress" },
        .none)
    else
      ({ m with opsPanel := m.opsPanel.warning "No repository selected" },
        .none)
  else if k == "R" then
    let selectedSnapshot := m.snapPanel.getSelected
    if !m.restoreInProgress && selectedSnapshot.isSome then
      let rf := (newRestoreForm (selectedSnapshot.getD default)).setSize
        (m.width * 2 / 3) (m.height * 2 / 3)
      ({ m with restoreForm := some rf, showRestoreForm := true }, .none)
    else if m.restoreInProgress then
      ({ m with opsPanel := m.opsPanel.warning "Restore already in progress" },
        .none)
    else
      ({ m with opsPanel := m.opsPanel.warning "No snapshot selected" }, .none)
  else if k == "/" then
    if m.activePanel = panelSnapshots then
      ({ m with
          filterInputActive := true, filterInputText := "",
          opsPanel := m.opsPanel.info
            "Filter mode: type to search, Enter to confirm, Esc to cancel" },
        .none)
    else (m, .none)
  else if k == "esc" then
    if m.activePanel = panelSnapshots ∧ m.snapPanel.isFilterActive then
      ({ m with
          snapPanel := m.snapPanel.clearFilter,
          opsPanel := m.opsPanel.info "Filter cleared" }, .none)
    else (m, .none)
  else if k == "c" then
    if m.activePanel = panelSnapshots ∧ m.snapPanel.isFilterActive then
      ({ m with
          snapPanel := m.snapPanel.clearFilter,
          opsPanel := m.opsPanel.info "Filter cleared" }, .none)
    else (m, .none)
  else (m, .none)

/-- The tea.KeyMsg handling of Model.Update: the modal guard chain in source
order, then the main key switch. The backup, restore and repo form widgets
and the dialog text input consume the keys the source passes to them; their
internal commands are `Cmd.delegated`. The repo-form submission path
performs filesystem and configuration I/O and is likewise abstracted as a
delegated command. -/
def Model.updateKey (m : Model) (k : String) : Model × Cmd :=
  if m.showHelp then
    if k == "?" || k == "esc" then ({ m with showHelp := false }, .none)
    else (m, .none)
  else if m.showBackupForm then
    if k == "esc" then ({ m with showBackupForm := false }, .none)
    else if k == "enter" && m.backupForm.valid then
      let opts : BackupOptions :=
        ⟨m.backupForm.paths, m.backupForm.tags, m.backupForm.exclude⟩
      ({ m with
          showBackupForm := false, backupInProgress := true,
          opsPanel := m.opsPanel.info
            ("Starting backup of " ++ toString opts.paths.length
              ++ " paths...") },
        .executeBackup opts)
    else (m, .delegated)
  else if m.showRestoreForm then
    if k == "esc" then ({ m with showRestoreForm := false }, .none)
    else if k == "enter" && ((m.restoreForm.map (fun f => f.valid)).getD false)
        then
      match m.snapPanel.getSelected with
      | none =>
          ({ m with
              showRestoreForm := false,
              opsPanel := m.opsPanel.logError "No snapshot selected" }, .none)
      | some selectedSnapshot =>
          let f := m.restoreForm.getD (newRestoreForm selectedSnapshot)
          let opts : RestoreOptions :=
            ⟨selectedSnapshot.id, f.target, f.includePaths⟩
          ({ m with
              showRestoreForm := false, restoreInProgress := true,
              opsPanel := m.opsPanel.info
                ("Starting restore of snapshot "
                  ++ selectedSnapshot.shortID ++ "...") },
            .executeRestore opts)
    else (m, .delegated)
  else if m.filterInputActive then
    if k == "esc" then
      ({ m with filterInputActive := false, filterInputText := "" }, .none)
    else if k == "enter" then
      ({ m with
          snapPanel := m.snapPanel.setFilter m.filterInputText,
          filterInputActive := false,
          opsPanel := m.opsPanel.info
            ("Filter applied: " ++ m.filterInputText) }, .none)
    else if k == "backspace" then
      if m.filterInputText.length > 0 then
        let t : String := ⟨m.filterInputText.toList.dropLast⟩
        let m := { m with filterInputText := t }
        if t == "" then ({ m with snapPanel := m.snapPanel.clearFilter }, .none)
        else ({ m with snapPanel := m.snapPanel.setFilter t }, .none)
      else (m, .none)
    else
      if k.length = 1 then
        let t := m.filterInputText ++ k
        ({ m with
            filterInputText := t,
            snapPanel := m.snapPanel.setFilter t }, .none)
      else (m, .none)
  else
    match (match m.fileBrowser with
           | some fb => if m.showFileBrowser then m.fileBrowserKey fb k
                        else none
           | none => none) with
    | some r => r
    | none =>
      match (if m.showFoundRepos then m.foundReposKey k else none) with
      | some r => r
      | none =>
        match m.removeConfirmDialog with
        | some dialog =>
            if m.showRemoveConfirm then
              if k == "esc" then
                ({ m with
                    showRemoveConfirm := false,
                    removeConfirmDialog := none, repoToRemove := "",
                    opsPanel := m.opsPanel.info
                      "Cancelled repository removal" }, .none)
              else if k == "enter" then
                if dialog.isConfirmed then
                  ({ m with
                      opsPanel :=
                        (m.opsPanel.info
                        ("Confirmed - removing " ++ m.repoToRemove
                          ++ " from configuration...")).dimmed
                        "Updating configuration file..." },
                    .removeRepository)
                else (m, .none)
              else
                ({ m with removeConfirmDialog := some (dialog.update k) },
                  .delegated)
            else if m.showRepoForm then
              if k == "esc" then
                ({ m with
                    showRepoForm := false,
                    opsPanel := m.opsPanel.info
                      "Cancelled repository creation" }, .none)
              else (m, .delegated)
            else m.mainKeySwitch k
        | none =>
            if m.showRepoForm then
              if k == "esc" then
                ({ m with
                    showRepoForm := false,
                    opsPanel := m.opsPanel.info
                      "Cancelled repository creation" }, .none)
              else (m, .delegated)
            else m.mainKeySwitch k

/-- model.Model.Update: the transition function over the embedded messages. -/
def Model.update (m : Model) (msg : Msg) : Model × Cmd :=
  match msg with
  | .repositoriesLoaded repos =>
      let m := { m with
        loadingRepositories := false, repositories := repos,
        opsPanel := m.opsPanel.success
          ("Loaded " ++ toString repos.length ++ " repositories from config") }
      if repos.length = 0 then
        let p := ((m.opsPanel.dimmed "No repositories configured").info
          "Press a to add repository or s to scan for existing repos").dimmed
          "Config: ~/.config/lazyrestic/config.yaml"
        ({ m with
            opsPanel := p,
            metricsPanel := m.metricsPanel.setRepository none }, .none)
      else
        let m :=
          if m.currentRepoIndex < (m.repositories.length : Int) then
            let selectedRepo :=
              m.repositories.getD m.currentRepoIndex.toNat default
            { m with
                metricsPanel := m.metricsPanel.setRepository (some selectedRepo),
                opsPanel := m.opsPanel.info
                  ("Selected repository: " ++ selectedRepo.name ++ " at "
                    ++ selectedRepo.path) }
          else m
        m.loadSnapshotsWithMessage
  | .snapshotsLoaded snapshots errmsg filteredCount cmdLogName cmdLogPath =>
      let m := { m with loadingSnapshots := false }
      match errmsg with
      | some e =>
          ({ m with
              opsPanel :=
                (m.opsPanel.logError
                ("Failed to load snapshots from " ++ cmdLogName ++ ": "
                  ++ e)).dimmed ("Repository: " ++ cmdLogPath) }, .none)
      | none =>
          let m := { m with snapPanel := m.snapPanel.setSnapshots snapshots }
          let p := (m.opsPanel.success
            ("Loaded " ++ toString snapshots.length ++ " snapshots from "
              ++ cmdLogName)).dimmed ("Repository path: " ++ cmdLogPath)
          let p :=
            if filteredCount > 0 then
              p.dimmed ("Filtered " ++ toString filteredCount
                ++ " systemd-private snapshots")
            else p
          let p := p.info
            ("Command: restic -r " ++ cmdLogPath ++ " snapshots --json")
          let m := { m with opsPanel := p }
          if snapshots.length > 0 then (m.logSelectedSnapshot, .none)
          else (m, .none)
  | .filesLoaded files errmsg =>
      match errmsg with
      | some e =>
          ({ m with
              opsPanel :=
                m.opsPanel.logError ("Failed to load files: " ++ e) }, .none)
      | none =>
          match m.fileBrowser with
          | some fb =>
              ({ m with
                  fileBrowser := some (fb.setFiles files),
                  opsPanel := m.opsPanel.info
                    ("Loaded " ++ toString files.length
                      ++ " files/directories") }, .none)
          | none => (m, .none)
  | .backupProgress progress updatesOpen =>
      let m := { m with currentBackupProgress := progress }
      let m :=
        match progress with
        | some p => { m with opsPanel := m.opsPanel.setBackupProgress p }
        | none => m
      if updatesOpen then (m, .listenForBackupUpdates) else (m, .none)
  | .backupSummary summary errmsg =>
      let m := { m with
        backupInProgress := false,
        currentBackupProgress := none,
        opsPanel := m.opsPanel.clearBackupProgress }
      let m :=
        match errmsg with
        | some e =>
            { m with opsPanel := m.opsPanel.logError ("Backup failed: " ++ e) }
        | none =>
            match summary with
            | some s =>
                { m with
                    opsPanel := m.opsPanel.success
                      ("Backup completed! New: " ++ toString s.filesNew
                        ++ ", Changed: " ++ toString s.filesChanged
                        ++ ", Unmodified: " ++ toString s.filesUnmodified) }
            | none =>
                { m with
                    opsPanel :=
                      m.opsPanel.success "Backup completed successfully" }
      m.loadSnapshotsWithMessage
  | .restoreProgress progress updatesOpen =>
      let m := { m with currentRestoreProgress := progress }
      let m :=
        match progress with
        | some _ => { m with opsPanel := m.opsPanel.info "Restoring snapshot..." }
        | none => m
      if updatesOpen then (m, .listenForRestoreUpdates) else (m, .none)
  | .restoreSummary summary errmsg =>
      let m := { m with
        restoreInProgress := false,
        currentRestoreProgress := none }
      let m :=
        match errmsg with
        | some e =>
            { m with opsPanel := m.opsPanel.logError ("Restore failed: " ++ e) }
        | none =>
            match summary with
            | some _ =>
                { m with
                    opsPanel :=
                      m.opsPanel.success "Restore completed successfully" }
            | none =>
                { m with opsPanel := m.opsPanel.success "Restore completed" }
      (m, .none)
  | .forgetDryRun results policy errmsg =>
      match errmsg with
      | some e =>
          ({ m with
              showForgetForm := false,
              opsPanel := m.opsPanel.logError
                ("Forget dry-run failed: " ++ e) }, .none)
      | none =>
          let fp := (newForgetPreview results policy).setSize
            (m.width * 3 / 4) (m.height * 3 / 4)
          let m := { m with
            forgetPreviewResults := results,
            forgetPolicy := policy, forgetPreview := some fp,
            showForgetForm := false, showForgetPreview := true }
          ({ m with
              opsPanel := m.opsPanel.info
                ("Dry-run complete: " ++ toString fp.getTotalToRemove
                ++ " snapshots will be removed") }, .none)
  | .forgetComplete errmsg =>
      let m := { m with
        showForgetConfirm := false,
        forgetConfirmDialog := none }
      let m :=
        match errmsg with
        | some e =>
            { m with opsPanel := m.opsPanel.logError ("Forget failed: " ++ e) }
        | none =>
            let totalRemoved :=
              (m.forgetPreviewResults.map
                (fun (r : ForgetResult) => r.snapshotsToRemove.length)).sum
            { m with
                opsPanel := m.opsPanel.success
                  ("Forget completed: " ++ toString totalRemoved
                  ++ " snapshots removed") }
      m.loadSnapshotsWithMessage
  | .pruneDryRun output errmsg =>
      match errmsg with
      | some e =>
          ({ m with
              opsPanel :=
                m.opsPanel.logError ("Prune dry-run failed: " ++ e) }, .none)
      | none =>
          let dialog := (newConfirmationDialog "PRUNE REPOSITORY"
            ("You are about to PRUNE the repository.\n\nThis will permanently remove unreferenced data.\nThis operation CANNOT be undone!\n\n"
              ++ output) "PRUNE").setSize (m.width * 3 / 4) (m.height * 3 / 4)
          ({ m with
              pruneDryRunOutput := output,
              pruneConfirmDialog := some dialog, showPruneConfirm := true,
              opsPanel := m.opsPanel.info
                "Prune dry-run complete - review and confirm" }, .none)
  | .pruneComplete errmsg =>
      let m := { m with
        showPruneConfirm := false,
        pruneConfirmDialog := none }
      let m :=
        match errmsg with
        | some e =>
            { m with opsPanel := m.opsPanel.logError ("Prune failed: " ++ e) }
        | none =>
            { m with
                opsPanel :=
                  m.opsPanel.success "Prune completed successfully" }
      (m, .loadRepositories)
  | .scannedRepos found =>
      if found.length = 0 then
        ({ m with
            opsPanel :=
              (m.opsPanel.info
              "No restic repositories found in scanned locations").dimmed
              "Scanned: /mnt, /media, /backup, /srv, /opt" }, .none)
      else
        ({ m with
            opsPanel :=
              (m.opsPanel.success
              ("Found " ++ toString found.length
                ++ " potential repositories")).info
              "Select a repository and press Enter to add it",
            showFoundRepos := true, foundRepos := found,
            selectedFound := 0 }, .none)
  | .cacheCleanup output errmsg =>
      match errmsg with
      | some e =>
          ({ m with
              opsPanel :=
                m.opsPanel.logError ("Cache cleanup failed: " ++ e) }, .none)
      | none =>
          let p := m.opsPanel.success "Cache cleanup completed successfully"
          let p := if output != "" then p.info output else p
          ({ m with
              opsPanel :=
                p.dimmed "Removed old/unused cache entries" }, .none)
  | .unlock output errmsg =>
      match errmsg with
      | some e =>
          ({ m with
              opsPanel :=
                m.opsPanel.logError ("Unlock failed: " ++ e) }, .none)
      | none =>
          let p := m.opsPanel.success "Repository unlocked successfully"
          let p := if output != "" then p.info output else p
          ({ m with
              opsPanel :=
                p.dimmed "Stale locks removed - repository is now accessible" },
            .loadRepositories)
  | .repoRemoved repoName errmsg =>
      let m := { m with
        showRemoveConfirm := false,
        removeConfirmDialog := none, repoToRemove := "" }
      match errmsg with
      | some e =>
          ({ m with
              opsPanel :=
                (m.opsPanel.logError
                ("Failed to remove repository: " ++ e)).dimmed
                "Repository was not removed from configuration" }, .none)
      | none =>
          let p := (m.opsPanel.success separatorLine).success
            ("Repository " ++ repoName ++ " removed from LazyRestic")
          let p := (p.dimmed
            "Configuration file updated: ~/.config/lazyrestic/config.yaml").info
            "Repository files are still on disk - only config entry removed"
          ({ m with opsPanel := p.success separatorLine }, .loadRepositories)
  | .key k => m.updateKey k

/-- model.waitForBackupUpdate: one blocking read from the backup channel,
turned into the next message; a closed channel (`none`) is reported as a
completed backup with neither summary nor error. -/
def waitForBackupUpdate : Option BackupMessage → Msg
  | none => .backupSummary none none
  | some msg =>
      match msg.errmsg with
      | some e => .backupSummary none (some e)
      | none =>
          match msg.progress with
          | some p => .backupProgress (some p) true
          | none =>
              match msg.summary with
              | some s => .backupSummary (some s) none
              | none => .backupProgress none true

/-- model.waitForRestoreUpdate: the restore counterpart. -/
def waitForRestoreUpdate : Option RestoreMessage → Msg
  | none => .restoreSummary none none
  | some msg =>
      match msg.errmsg with
      | some e => .restoreSummary none (some e)
      | none =>
          match msg.progress with
          | some p => .restoreProgress (some p) true
          | none =>
              match msg.summary with
              | some s => .restoreSummary (some s) none
              | none => .restoreProgress none true

/-! ## Specification-side definitions and sample data for the claims -/

/-- Written from the spec wording for the tag predicate category: inactive
when empty, otherwise some tag contains the filter case-insensitively. -/
def specFilterTagPass (p : SnapshotPanel) (snap : Snapshot) : Bool :=
  p.filterTag == "" ||
  (snap.tags.any fun tag =>
    strContains (goToLower tag) (goToLower p.filterTag))

/-- Written from the spec wording for the host predicate category. -/
def specFilterHostPass (p : SnapshotPanel) (snap : Snapshot) : Bool :=
  p.filterHost == "" ||
  strContains (goToLower snap.hostname) (goToLower p.filterHost)

/-- Written from the spec wording for the free-text predicate category: OR
over full id, short id, each path and each tag. -/
def specFilterTextPass (p : SnapshotPanel) (snap : Snapshot) : Bool :=
  p.filterText == "" ||
  (strContains (goToLower snap.id) (goToLower p.filterText) ||
   strContains (goToLower snap.shortID) (goToLower p.filterText) ||
   (snap.paths.any fun path =>
     strContains (goToLower path) (goToLower p.filterText)) ||
   (snap.tags.any fun tag =>
     strContains (goToLower tag) (goToLower p.filterText)))

/-- Written from the spec wording: AND across the three predicate
categories. -/
def specFilterMatches (p : SnapshotPanel) (snap : Snapshot) : Bool :=
  specFilterTagPass p snap && specFilterHostPass p snap &&
    specFilterTextPass p snap

/-- The scroll-window containment property of the spec: the selection lies
inside the visible window. -/
def selVisible (p : SnapshotPanel) : Prop :=
  p.scrollOffset ≤ p.selected ∧
    p.selected < p.scrollOffset + p.visibleLines

instance (p : SnapshotPanel) : Decidable (selVisible p) := by
  unfold selVisible; infer_instance

/-- A sample snapshot for concrete witnesses. -/
def sampleSnap (i : Nat) : Snapshot :=
  { id := "id" ++ toString i, time := (i : Int), hostname := "web1"
    username := "root", paths := ["/home"], tags := ["daily"]
    shortID := "s" ++ toString i }

/-- A sample file node for concrete witnesses. -/
def sampleFile (i : Nat) : FileNode :=
  { messageType := "node", name := toString i, nodeType := "file"
    path := "/f" ++ toString i, size := 0, selected := false }

/-- An empty-collection file browser. -/
def fbEmpty : FileBrowser := newFileBrowser (sampleSnap 0)

/-- A 101-item, pageSize-50 file browser. -/
def fb101 : FileBrowser :=
  { fbEmpty with files := (List.range 101).map sampleFile }

/-- fb101 navigated to its last page (0-indexed page 2). -/
def fb101Last : FileBrowser := { fb101 with currentPage := 2 }

/-- A ten-snapshot panel whose height gives a three-line visible window. -/
def demoPanel : SnapshotPanel :=
  { newSnapshotPanel with
      snapshots := (List.range 10).map sampleSnap,
      filteredSnapshots := (List.range 10).map sampleSnap,
      height := 9 }

/-- A stat oracle over an empty filesystem. -/
def statNone : String → StatResult := fun _ => .missing

/-- A raw configuration entry carrying a literal password key. -/
def rawBadRepo : RawRepo :=
  { keys := ["name", "path", "password"], name := some "r0" }

def rawBad : RawConfig :=
  { repositories := [rawBadRepo], parsed := { repositories := [] } }

def repoNoMethod : RepositoryConfig :=
  { name := "a", path := "/repo", passwordCommand := "", passwordFile := ""
    password := "" }

def repoTwoMethods : RepositoryConfig :=
  { name := "b", path := "/repo", passwordCommand := "pass show x"
    passwordFile := "/pw", password := "" }

def repoFileMethod : RepositoryConfig :=
  { name := "c", path := "/repo", passwordCommand := ""
    passwordFile := "/pw", password := "" }

def emptyBackupForm : BackupForm :=
  { valid := false, paths := [], tags := [], exclude := []
    width := 0, height := 0 }

/-- A concrete model in the idle state (no modal open, nothing running). -/
def baseModel : Model :=
  { width := 120, height := 40, ready := true, tooSmall := false
    config := { repositories := [repoFileMethod] }
    activePanel := panelRepositories
    repositories := []
    currentRepoIndex := 0
    loadingSnapshots := false, loadingRepositories := false
    repoPanel := newRepositoryPanel
    metricsPanel := { repository := none }
    snapPanel := newSnapshotPanel
    opsPanel := newOperationsPanel
    showHelp := false, showRepoForm := false
    showBackupForm := false
    backupForm := emptyBackupForm
    backupInProgress := false, currentBackupProgress := none
    showRestoreForm := false, restoreForm := none
    restoreInProgress := false, currentRestoreProgress := none
    filterInputActive := false, filterInputText := ""
    showFileBrowser := false, fileBrowser := none
    showFoundRepos := false, foundRepos := [], selectedFound := 0
    showForgetForm := false, showForgetPreview := false, forgetPreview := none
    showForgetConfirm := false, forgetConfirmDialog := none
    forgetPreviewResults := [], forgetPolicy := default
    showPruneConfirm := false, pruneConfirmDialog := none
    pruneDryRunOutput := ""
    showRemoveConfirm := false, removeConfirmDialog := none
    repoToRemove := "" }

def repoA : Repository :=
  { name := "repo-a", path := "/a", lastBackup := 0, size := 0
    totalFiles := 0, snapshotCount := 0, status := "healthy" }

def repoB : Repository :=
  { name := "repo-b", path := "/b", lastBackup := 0, size := 0
    totalFiles := 0, snapshotCount := 0, status := "healthy" }

/-- baseModel with two repositories loaded and the second one selected. -/
def modelSelB : Model :=
  { baseModel with repositories := [repoA, repoB], currentRepoIndex := 1 }

/-! ### C3: automatic refresh after operation completion -/

/-- baseModel with a backup running and a snapshot selected. -/
def modelBusy : Model :=
  { baseModel with
      backupInProgress := true,
      snapPanel := { newSnapshotPanel with
        snapshots := [sampleSnap 1], filteredSnapshots := [sampleSnap 1] } }

/-! ## Theorems settling the claims -/

/-- C6: the typed-word confirmation is accepted exactly when the input is
character-for-character equal to the expected word, case-sensitively; in
particular the prefix "delet" and the padded "DELETE " are rejected against
"DELETE" while the exact word is accepted. -/
theorem claim_C6_confirmation_exact :
    (∀ (t msg expected input : String) (w h : Int),
      ConfirmationDialog.isConfirmed ⟨t, msg, expected, input, w, h⟩ = true ↔
        input = expected)
    ∧ ConfirmationDialog.isConfirmed
        { newConfirmationDialog "T" "M" "DELETE" with input := "delet" } = false
    ∧ ConfirmationDialog.isConfirmed
        { newConfirmationDialog "T" "M" "DELETE" with input := "DELETE " } = false
    ∧ ConfirmationDialog.isConfirmed
        { newConfirmationDialog "T" "M" "DELETE" with input := "DELETE" } = true := by
  refine ⟨fun t msg expected input w h => ?_, by decide, by decide, by decide⟩
  simp [ConfirmationDialog.isConfirmed]

/-- C8: a 0-item collection has exactly one page and its page index stays 0
and never becomes negative under any pagination operation; 101 items with
pageSize 50 give 3 pages; next-page from the last page is a no-op. -/
theorem claim_C8_pagination :
    (∀ fb : FileBrowser, fb.files = [] → fb.getTotalPages = 1)
    ∧ (∀ fb : FileBrowser, fb.files = [] → fb.currentPage = 0 →
        fb.nextPage.currentPage = 0 ∧ fb.prevPage.currentPage = 0 ∧
        (fb.setFiles []).currentPage = 0)
    ∧ (∀ fb : FileBrowser, 0 ≤ fb.currentPage →
        0 ≤ fb.nextPage.currentPage ∧ 0 ≤ fb.prevPage.currentPage)
    ∧ (∀ (fb : FileBrowser) (files : List FileNode),
        0 ≤ (fb.setFiles files).currentPage)
    ∧ (∀ fb : FileBrowser, fb.files.length = 101 → fb.pageSize = 50 →
        fb.getTotalPages = 3)
    ∧ (∀ fb : FileBrowser, fb.currentPage = fb.getTotalPages - 1 →
        fb.nextPage = fb) := by
  refine ⟨?_, ?_, ?_, ?_, ?_, ?_⟩
  · intro fb h
    simp [FileBrowser.getTotalPages, h]
  · intro fb h h0
    refine ⟨?_, ?_, ?_⟩
    · simp [FileBrowser.nextPage, FileBrowser.getTotalPages, h, h0]
    · simp [FileBrowser.prevPage, h0]
    · simp only [FileBrowser.setFiles, FileBrowser.getTotalPages,
        FileBrowser.getFilesOnCurrentPage, h, h0]
      norm_num
      split <;> rfl
  · intro fb h
    constructor
    · unfold FileBrowser.nextPage
      split <;> first
        | omega
        | (dsimp only; omega)
    · unfold FileBrowser.prevPage
      split <;> first
        | omega
        | (dsimp only; omega)
  · intro fb files
    unfold FileBrowser.setFiles
    dsimp only
    repeat' first
      | (split <;> dsimp only)
      | omega
  · intro fb h hp
    simp only [FileBrowser.getTotalPages, h, hp]
    norm_num
  · intro fb h
    unfold FileBrowser.nextPage
    split
    · omega
    · rfl

/-- C8 witness: the pagination facts evaluated on concrete browsers. -/
theorem claim_C8_pagination_witness :
    fbEmpty.getTotalPages = 1 ∧ fb101.getTotalPages = 3 ∧
    fb101Last.nextPage = fb101Last :=
  ⟨claim_C8_pagination.1 fbEmpty rfl,
   claim_C8_pagination.2.2.2.2.1 fb101 (by decide) (by decide),
   claim_C8_pagination.2.2.2.2.2 fb101Last (by decide)⟩

/-- C9: single-step selection moves preserve containment of the selection in
the visible window; a one-step move just past either edge shifts the offset
by exactly one (the deficit); and the concrete 10-item, capacity-3 walk from
index 0 to 9 keeps the selection in the window at every step. -/
theorem claim_C9_scroll_containment :
    (∀ p : SnapshotPanel, selVisible p →
      selVisible p.moveUp ∧ selVisible p.moveDown)
    ∧ (∀ p : SnapshotPanel, selVisible p →
        p.selected = p.scrollOffset + p.visibleLines - 1 →
        p.selected < (p.filteredSnapshots.length : Int) - 1 →
        p.moveDown.selected = p.selected + 1 ∧
        p.moveDown.scrollOffset = p.scrollOffset + 1)
    ∧ (∀ p : SnapshotPanel, selVisible p →
        p.selected = p.scrollOffset → p.selected > 0 →
        p.moveUp.selected = p.selected - 1 ∧
        p.moveUp.scrollOffset = p.scrollOffset - 1)
    ∧ (∀ i : Nat, i < 10 →
        selVisible (SnapshotPanel.moveDown^[i] demoPanel)) := by
  refine ⟨?_, ?_, ?_, by decide⟩
  · intro p h
    constructor
    · unfold selVisible SnapshotPanel.visibleLines at h ⊢
      unfold SnapshotPanel.moveUp
      simp only [apply_ite SnapshotPanel.selected,
        apply_ite SnapshotPanel.scrollOffset, apply_ite SnapshotPanel.height]
      split_ifs at h ⊢ <;> omega
    · unfold selVisible SnapshotPanel.visibleLines at h ⊢
      unfold SnapshotPanel.moveDown SnapshotPanel.visibleLines
      simp only [apply_ite SnapshotPanel.selected,
        apply_ite SnapshotPanel.scrollOffset, apply_ite SnapshotPanel.height]
      split_ifs at h ⊢ <;> omega
  · intro p h he hl
    unfold selVisible SnapshotPanel.visibleLines at h
    unfold SnapshotPanel.visibleLines at he
    unfold SnapshotPanel.moveDown SnapshotPanel.visibleLines
    simp only [apply_ite SnapshotPanel.selected,
      apply_ite SnapshotPanel.scrollOffset, apply_ite SnapshotPanel.height]
    split_ifs at h he ⊢ <;> constructor <;> dsimp only <;> omega
  · intro p h he hp
    unfold selVisible SnapshotPanel.visibleLines at h
    unfold SnapshotPanel.moveUp
    simp only [apply_ite SnapshotPanel.selected,
      apply_ite SnapshotPanel.scrollOffset, apply_ite SnapshotPanel.height]
    split_ifs at h ⊢ <;> constructor <;> dsimp only <;> omega

/-- C9 witness: the containment preservation applied to the concrete
ten-item panel. -/
theorem claim_C9_scroll_containment_witness :
    selVisible demoPanel ∧ selVisible demoPanel.moveDown :=
  ⟨by decide, (claim_C9_scroll_containment.1 demoPanel (by decide)).2⟩

/-- The source filter predicate coincides with the spec-worded one: AND
across the tag, host and free-text categories, OR inside the free-text
field checks. -/
theorem matchesFilter_eq_specFilterMatches (p : SnapshotPanel)
    (snap : Snapshot) : p.matchesFilter snap = specFilterMatches p snap := by
  unfold SnapshotPanel.matchesFilter specFilterMatches specFilterTagPass
    specFilterHostPass specFilterTextPass
  cases hT : p.filterTag == "" <;> cases hH : p.filterHost == "" <;>
    cases hX : p.filterText == "" <;>
    cases hA : (snap.tags.any fun tag =>
      strContains (goToLower tag) (goToLower p.filterTag)) <;>
    cases hB : strContains (goToLower snap.hostname)
      (goToLower p.filterHost) <;>
    simp [hT, hH, hX, hA, hB] <;> simp_all

/-- All-empty filter fields make the spec predicate vacuously true. -/
theorem specFilterMatches_of_empty (p : SnapshotPanel) (hT : p.filterText = "")
    (hG : p.filterTag = "") (hH : p.filterHost = "") (snap : Snapshot) :
    specFilterMatches p snap = true := by
  simp [specFilterMatches, specFilterTagPass, specFilterHostPass,
    specFilterTextPass, hT, hG, hH]

/-- C5: the filtered collection is exactly the order-preserving sublist of
snapshots passing every active predicate category — tag (some tag contains
the filter, case-insensitively), host (hostname contains the filter), and
free text (OR over full id, short id, paths and tags) — ANDed together;
with no active filter the full collection is kept. -/
theorem claim_C5_filter_engine :
    ∀ p : SnapshotPanel,
      p.applyFilter.filteredSnapshots =
        if p.filterActive then p.snapshots.filter (specFilterMatches p)
        else p.snapshots := by
  intro p
  have hfix : p.snapshots.filter (fun s => p.matchesFilter s) =
      p.snapshots.filter (specFilterMatches p) :=
    List.filter_congr (fun s _ => matchesFilter_eq_specFilterMatches p s)
  unfold SnapshotPanel.applyFilter
  cases hC : (!p.filterActive ||
      (p.filterText == "" && p.filterTag == "" && p.filterHost == ""))
  · have hA : p.filterActive = true := by
      cases h2 : p.filterActive <;> simp [h2] at hC ⊢
    rw [if_neg (by simp)]
    simp only [hA, if_true]
    rw [apply_ite SnapshotPanel.filteredSnapshots]
    split <;> exact hfix
  · rw [if_pos rfl]
    show p.snapshots = _
    cases hA : p.filterActive
    · simp [hA]
    · simp only [hA, if_true]
      simp only [hA, Bool.not_true, Bool.false_or, Bool.and_eq_true,
        beq_iff_eq] at hC
      exact (List.filter_eq_self.mpr (fun s _ =>
        specFilterMatches_of_empty p hC.1.1 hC.1.2 hC.2 s)).symm

/-! ### C1: terminal events on the session channels -/

theorem backupEmit_no_error (lines : List BackupLine) :
    (backupEmit lines).all (fun msg => !msg.errmsg.isSome) = true := by
  induction lines with
  | nil => rfl
  | cons l rest ih => cases l <;> simp_all [backupEmit]

theorem restoreEmit_not_terminal (lines : List String) :
    (restoreEmit lines).all (fun msg => !msg.isTerminal) = true := by
  induction lines with
  | nil => rfl
  | cons l rest ih =>
      unfold restoreEmit
      split
      · simp_all [RestoreMessage.isTerminal]
      · exact ih

theorem all_dropLast {α : Type} (l : List α) (f : α → Bool)
    (h : l.all f = true) : l.dropLast.all f = true := by
  rw [List.all_eq_true] at h ⊢
  exact fun x hx => h x ((List.dropLast_sublist l).subset hx)

theorem filter_nil_of_all_not {α : Type} (l : List α) (f : α → Bool)
    (h : l.all (fun x => !f x) = true) : l.filter f = [] := by
  rw [List.all_eq_true] at h
  rw [List.filter_eq_nil_iff]
  intro a ha
  have hx := h a ha
  simp at hx
  simp [hx]

/-- C1 counterexample: a backup subprocess that prints one summary line and
then exits non-zero makes BackupWithChannel emit two terminal events on one
session (the summary, then the error from Wait); and a stdout stream with a
status line after the summary line produces a progress event after the
summary. -/
theorem claim_C1_counterexample :
    ((backupWithChannel .started [.summary default] none "partial failure"
        (some "exit status 3")).events.filter BackupMessage.isTerminal).length
      = 2
    ∧ (backupWithChannel .started [.summary default, .status default] none ""
        none).events =
      [⟨none, some default, none⟩, ⟨some default, none, none⟩] := by
  constructor <;> rfl

/-- C1 amended: restore sessions do satisfy terminal-event exclusivity — at
most one terminal event, nothing after it, channel closed — and backup
sessions emit at most one error event with nothing after it and always close
the channel; but a backup summary is not terminal-exclusive: the adapter
emits one summary event per summary line and may follow a summary with
further progress events, summaries, or a final error event (for example when
the subprocess exits non-zero after printing its summary). -/
theorem claim_C1_amended_terminal_events :
    (∀ spawn lines scanErr stderrText waitErr,
      (restoreWithChannel spawn lines scanErr stderrText waitErr).closed = true
      ∧ ((restoreWithChannel spawn lines scanErr stderrText
            waitErr).events.filter RestoreMessage.isTerminal).length ≤ 1
      ∧ (restoreWithChannel spawn lines scanErr stderrText
          waitErr).events.dropLast.all (fun msg => !msg.isTerminal) = true)
    ∧ (∀ spawn lines scanErr stderrText waitErr,
      (backupWithChannel spawn lines scanErr stderrText waitErr).closed = true
      ∧ ((backupWithChannel spawn lines scanErr stderrText
            waitErr).events.filter (fun msg => msg.errmsg.isSome)).length ≤ 1
      ∧ (backupWithChannel spawn lines scanErr stderrText
          waitErr).events.dropLast.all (fun msg => !msg.errmsg.isSome)
            = true) := by
  constructor
  · intro spawn lines scanErr stderrText waitErr
    cases spawn with
    | stdoutPipeErr e =>
        exact ⟨rfl, by simp [restoreWithChannel, RestoreMessage.isTerminal],
          by simp [restoreWithChannel]⟩
    | stderrPipeErr e =>
        exact ⟨rfl, by simp [restoreWithChannel, RestoreMessage.isTerminal],
          by simp [restoreWithChannel]⟩
    | startErr e =>
        exact ⟨rfl, by simp [restoreWithChannel, RestoreMessage.isTerminal],
          by simp [restoreWithChannel]⟩
    | started =>
        cases scanErr with
      | some e =>
          refine ⟨rfl, ?_, ?_⟩
          · simp only [restoreWithChannel, List.filter_append]
            rw [filter_nil_of_all_not _ _ (restoreEmit_not_terminal lines)]
            simp [RestoreMessage.isTerminal]
          · simp only [restoreWithChannel, List.dropLast_concat]
            exact restoreEmit_not_terminal lines
      | none =>
          cases waitErr with
          | some e =>
              refine ⟨rfl, ?_, ?_⟩
              · simp only [restoreWithChannel, List.filter_append]
                rw [filter_nil_of_all_not _ _ (restoreEmit_not_terminal lines)]
                simp [RestoreMessage.isTerminal]
              · simp only [restoreWithChannel, List.dropLast_concat]
                exact restoreEmit_not_terminal lines
          | none =>
              refine ⟨rfl, ?_, ?_⟩
              · simp only [restoreWithChannel, List.filter_append]
                rw [filter_nil_of_all_not _ _ (restoreEmit_not_terminal lines)]
                simp [RestoreMessage.isTerminal]
              · simp only [restoreWithChannel, List.dropLast_concat]
                exact restoreEmit_not_terminal lines
  · intro spawn lines scanErr stderrText waitErr
    cases spawn with
    | stdoutPipeErr e =>
        exact ⟨rfl, by simp [backupWithChannel], by simp [backupWithChannel]⟩
    | stderrPipeErr e =>
        exact ⟨rfl, by simp [backupWithChannel], by simp [backupWithChannel]⟩
    | startErr e =>
        exact ⟨rfl, by simp [backupWithChannel], by simp [backupWithChannel]⟩
    | started =>
        cases scanErr with
      | some e =>
          refine ⟨rfl, ?_, ?_⟩
          · simp only [backupWithChannel, List.filter_append]
            rw [filter_nil_of_all_not _ _ (backupEmit_no_error lines)]
            simp
          · simp only [backupWithChannel, List.dropLast_concat]
            exact backupEmit_no_error lines
      | none =>
          cases waitErr with
          | some e =>
              refine ⟨rfl, ?_, ?_⟩
              · simp only [backupWithChannel, List.filter_append]
                rw [filter_nil_of_all_not _ _ (backupEmit_no_error lines)]
                simp
              · simp only [backupWithChannel, List.dropLast_concat]
                exact backupEmit_no_error lines
          | none =>
              refine ⟨rfl, ?_, ?_⟩
              · simp only [backupWithChannel]
                rw [filter_nil_of_all_not _ _ (backupEmit_no_error lines)]
                simp
              · simp only [backupWithChannel]
                exact all_dropLast _ _ (backupEmit_no_error lines)

/-! ### C10: closed channel without a terminal message -/

theorem getLast?_drop_of_lt {α : Type} (l : List α) (n : Nat)
    (h : n < l.length) : (l.drop n).getLast? = l.getLast? := by
  conv_rhs => rw [← List.take_append_drop n l]
  rw [List.getLast?_append_of_ne_nil]
  intro hc
  have hlen : (l.drop n).length = 0 := by rw [hc]; rfl
  rw [List.length_drop] at hlen
  omega

theorem addLog_getLast (p : OperationsPanel) (lvl msg : String) :
    (p.addLog lvl msg).logs.getLast? = some ⟨lvl, msg⟩ := by
  unfold OperationsPanel.addLog
  dsimp only
  split
  · rename_i h
    rw [getLast?_drop_of_lt _ _ (by simp at h ⊢; omega)]
    exact List.getLast?_concat _
  · exact List.getLast?_concat _

theorem addLog_dropLast_getLast (p : OperationsPanel) (lvl msg : String) :
    (p.addLog lvl msg).logs.dropLast.getLast? = p.logs.getLast? := by
  unfold OperationsPanel.addLog
  dsimp only
  split
  · rename_i h
    simp only [List.length_append, List.length_cons, List.length_nil] at h ⊢
    rw [List.drop_append_eq_append_drop]
    rw [show p.logs.length + 1 - 100 - p.logs.length = 0 from by omega]
    rw [List.drop_zero, List.dropLast_concat]
    exact getLast?_drop_of_lt _ _ (by omega)
  · rw [List.dropLast_concat]

/-- C10: a closed update channel with no summary or error delivered makes
the channel listener report a completed operation — a summary message with
nil error and no summary payload — and processing that message clears the
in-progress flag and progress state, logs a success (never a failure), and
for backup chains into the snapshot reload; the operation is never left in
progress. -/
theorem claim_C10_closed_channel :
    waitForBackupUpdate none = Msg.backupSummary none none
    ∧ waitForRestoreUpdate none = Msg.restoreSummary none none
    ∧ (∀ m : Model,
        (m.update (waitForBackupUpdate none)).1.backupInProgress = false
        ∧ (m.update (waitForBackupUpdate none)).1.currentBackupProgress = none
        ∧ (m.update (waitForBackupUpdate none)).2 = Cmd.loadSnapshots
        ∧ (m.update
            (waitForBackupUpdate none)).1.opsPanel.logs.dropLast.getLast? =
            some ⟨"success", "Backup completed successfully"⟩
        ∧ (m.update (waitForRestoreUpdate none)).1.restoreInProgress = false
        ∧ (m.update (waitForRestoreUpdate none)).1.currentRestoreProgress
            = none
        ∧ (m.update (waitForRestoreUpdate none)).1.opsPanel.logs.getLast? =
            some ⟨"success", "Restore completed"⟩) := by
  refine ⟨rfl, rfl, fun m => ⟨rfl, rfl, rfl, ?_, rfl, rfl, ?_⟩⟩
  · show ((((m.opsPanel.clearBackupProgress).success
        "Backup completed successfully").info
        "Loading snapshots...").logs).dropLast.getLast? = _
    rw [OperationsPanel.info, addLog_dropLast_getLast]
    exact addLog_getLast _ _ _
  · exact addLog_getLast _ _ _

/-! ### C7: credential configuration validation -/

theorem scanDeprecatedPassword_isSome (i : Nat) (l : List RawRepo)
    (h : ∃ r ∈ l, r.keys.contains "password" = true) :
    (scanDeprecatedPassword i l).isSome = true := by
  induction l generalizing i with
  | nil => simp at h
  | cons r rest ih =>
      unfold scanDeprecatedPassword
      split
      · rfl
      · rename_i hc
        obtain ⟨x, hx, hk⟩ := h
        cases hx with
        | head => exact absurd hk (by simp_all)
        | tail _ hmem => exact ih (i + 1) ⟨x, hmem, hk⟩

/-- C7: a configuration whose raw form carries a literal password key fails
loading outright (so no client and no subprocess can be built from it);
validation of a repository entry demands exactly one credential method —
zero or two are rejected; and for a valid entry the environment the client
builds holds exactly the repository location plus the one configured
credential variable. -/
theorem claim_C7_credential_validation :
    (∀ (raw : RawConfig) (stat : String → StatResult) (path : String),
      (∃ r ∈ raw.repositories, r.keys.contains "password" = true) →
      ∃ e, loadAndValidate stat raw path = .error e)
    ∧ (∀ (stat : String → StatResult) (repo : RepositoryConfig),
        repo.passwordFile = "" → repo.passwordCommand = "" →
        validateRepositoryConfig stat repo =
          .error "no password method specified (password_file or password_command required)")
    ∧ (∀ (stat : String → StatResult) (repo : RepositoryConfig),
        repo.passwordFile ≠ "" → repo.passwordCommand ≠ "" →
        validateRepositoryConfig stat repo =
          .error "multiple password methods specified, use only one of: password_file or password_command")
    ∧ (∀ repo : RepositoryConfig, repo.passwordFile ≠ "" →
        repo.passwordCommand = "" →
        buildEnv repo = ["RESTIC_REPOSITORY=" ++ repo.path,
          "RESTIC_PASSWORD_FILE=" ++ repo.passwordFile])
    ∧ (∀ repo : RepositoryConfig, repo.passwordFile = "" →
        repo.passwordCommand ≠ "" →
        buildEnv repo = ["RESTIC_REPOSITORY=" ++ repo.path,
          "RESTIC_PASSWORD_COMMAND=" ++ repo.passwordCommand]) := by
  refine ⟨?_, ?_, ?_, ?_, ?_⟩
  · intro raw stat path h
    have hs := scanDeprecatedPassword_isSome 0 raw.repositories h
    unfold loadAndValidate load
    cases hsc : scanDeprecatedPassword 0 raw.repositories with
    | none => rw [hsc] at hs; simp at hs
    | some e => exact ⟨e, rfl⟩
  · intro stat repo hf hc
    unfold validateRepositoryConfig
    simp [hf, hc]
  · intro stat repo hf hc
    unfold validateRepositoryConfig
    simp [hf, hc]
  · intro repo hf hc
    unfold buildEnv
    simp [hf, hc]
  · intro repo hf hc
    unfold buildEnv
    simp [hf, hc]







/-- C7 witness: the validation and environment facts evaluated on concrete
configurations. -/
theorem claim_C7_credential_validation_witness :
    (∃ e, loadAndValidate statNone rawBad "/cfg" = .error e)
    ∧ validateRepositoryConfig statNone repoNoMethod =
        .error "no password method specified (password_file or password_command required)"
    ∧ validateRepositoryConfig statNone repoTwoMethods =
        .error "multiple password methods specified, use only one of: password_file or password_command"
    ∧ buildEnv repoFileMethod =
        ["RESTIC_REPOSITORY=" ++ repoFileMethod.path,
         "RESTIC_PASSWORD_FILE=" ++ repoFileMethod.passwordFile] :=
  ⟨claim_C7_credential_validation.1 rawBad statNone "/cfg" (by decide),
   claim_C7_credential_validation.2.1 statNone repoNoMethod rfl rfl,
   claim_C7_credential_validation.2.2.1 statNone repoTwoMethods
     (by decide) (by decide),
   claim_C7_credential_validation.2.2.2.1 repoFileMethod (by decide) rfl⟩

/-! ### Concrete model values for counterexamples and witnesses -/






/-- C3 counterexample: processing a successful restore completion issues no
follow-up query at all — in particular no snapshot-listing query — on a
concrete model. -/
theorem claim_C3_counterexample :
    (baseModel.update (.restoreSummary (some default) none)).2 = Cmd.none := by
  rfl

/-- C3 amended: successful backup and forget completions re-issue a
snapshot-listing query; successful prune completion re-issues a
repository-info query instead (whose successful result, when repositories
exist, chains into a snapshot-listing query); successful restore completion
issues no follow-up query. -/
theorem claim_C3_amended_refresh :
    ∀ (m : Model) (s : Option BackupSummary) (rs : Option RestoreSummary),
      (m.update (.backupSummary s none)).2 = Cmd.loadSnapshots
      ∧ (m.update (.backupSummary s none)).1.loadingSnapshots = true
      ∧ (m.update (.forgetComplete none)).2 = Cmd.loadSnapshots
      ∧ (m.update (.pruneComplete none)).2 = Cmd.loadRepositories
      ∧ (∀ repos : List Repository, repos.length ≠ 0 →
          (m.update (.repositoriesLoaded repos)).2 = Cmd.loadSnapshots)
      ∧ (m.update (.restoreSummary rs none)).2 = Cmd.none := by
  intro m s rs
  refine ⟨?_, ?_, rfl, rfl, ?_, ?_⟩
  · cases s <;> rfl
  · cases s <;> rfl
  · intro repos h
    show (Model.update m (.repositoriesLoaded repos)).2 = Cmd.loadSnapshots
    unfold Model.update
    dsimp only
    rw [if_neg h]
    split <;> rfl
  · cases rs <;> rfl

/-- C3 amended witness: the refresh commands evaluated on the concrete base
model. -/
theorem claim_C3_amended_refresh_witness :
    (baseModel.update (.backupSummary none none)).2 = Cmd.loadSnapshots
    ∧ (baseModel.update (.repositoriesLoaded [repoA])).2 =
        Cmd.loadSnapshots :=
  ⟨(claim_C3_amended_refresh baseModel none none).1,
   (claim_C3_amended_refresh baseModel none none).2.2.2.2.1 [repoA]
     (by decide)⟩

/-- With no modal open, the key dispatch reaches the main key switch. -/
theorem updateKey_no_modal (m : Model) (k : String)
    (h1 : m.showHelp = false) (h2 : m.showBackupForm = false)
    (h3 : m.showRestoreForm = false) (h4 : m.filterInputActive = false)
    (h5 : m.showFileBrowser = false) (h6 : m.showFoundRepos = false)
    (h7 : m.showRemoveConfirm = false) (h8 : m.showRepoForm = false) :
    m.updateKey k = m.mainKeySwitch k := by
  unfold Model.updateKey
  cases hfb : m.fileBrowser <;> cases hrc : m.removeConfirmDialog <;>
    simp only [h1, h2, h3, h4, h5, h6, h7, h8, Bool.false_eq_true, if_false]

/-! ### C4: selection change and stale snapshot results -/

theorem logSelectedSnapshot_snapPanel (m : Model) :
    m.logSelectedSnapshot.snapPanel = m.snapPanel := by
  unfold Model.logSelectedSnapshot
  cases m.snapPanel.getSelected <;> rfl

/-- C4 counterexample: with repository repo-b selected (index 1), a snapshot
listing that arrived for repo-a is applied to the displayed collection
rather than discarded — the handler performs no staleness check and the
message carries no repository index to check against. -/
theorem claim_C4_counterexample :
    modelSelB.currentRepoIndex = 1
    ∧ (modelSelB.repositories.getD modelSelB.currentRepoIndex.toNat
        default).name = "repo-b"
    ∧ (modelSelB.update
        (.snapshotsLoaded [sampleSnap 42] none 0 "repo-a" "/a")).1.snapPanel.filteredSnapshots
        = [sampleSnap 42] := by
  refine ⟨rfl, rfl, ?_⟩
  rfl

/-- C4 amended: moving the repository selection (j or k in the repositories
panel) immediately triggers a new snapshot-listing query, but an arriving
snapshot-listing result is always applied to the snapshot panel, whichever
repository produced it (last writer wins); no stale result is discarded. -/
theorem claim_C4_amended_selection_query :
    (∀ m : Model, m.showHelp = false → m.showBackupForm = false →
      m.showRestoreForm = false → m.filterInputActive = false →
      m.showFileBrowser = false → m.showFoundRepos = false →
      m.showRemoveConfirm = false → m.showRepoForm = false →
      m.activePanel = panelRepositories →
      (m.update (.key "j")).2 = Cmd.loadSnapshots
      ∧ (m.update (.key "j")).1.loadingSnapshots = true
      ∧ (m.update (.key "k")).2 = Cmd.loadSnapshots)
    ∧ (∀ (m : Model) (snaps : List Snapshot) (fc : Int) (nm pth : String),
        (m.update (.snapshotsLoaded snaps none fc nm pth)).1.snapPanel =
          m.snapPanel.setSnapshots snaps) := by
  constructor
  · intro m h1 h2 h3 h4 h5 h6 h7 h8 hap
    cases hfb : m.fileBrowser <;> cases hrc : m.removeConfirmDialog <;>
    · constructor
      · show (m.updateKey "j").2 = Cmd.loadSnapshots
        unfold Model.updateKey
        simp only [h1, h2, h3, h4, h5, h6, h7, h8, hfb, hrc,
          Bool.false_eq_true, if_false]
        unfold Model.mainKeySwitch
        rw [if_neg (by decide), if_neg (by decide), if_neg (by decide),
          if_neg (by decide), if_pos (by decide), if_pos hap]
        rfl
      constructor
      · show (m.updateKey "j").1.loadingSnapshots = true
        unfold Model.updateKey
        simp only [h1, h2, h3, h4, h5, h6, h7, h8, hfb, hrc,
          Bool.false_eq_true, if_false]
        unfold Model.mainKeySwitch
        rw [if_neg (by decide), if_neg (by decide), if_neg (by decide),
          if_neg (by decide), if_pos (by decide), if_pos hap]
        rfl
      · show (m.updateKey "k").2 = Cmd.loadSnapshots
        unfold Model.updateKey
        simp only [h1, h2, h3, h4, h5, h6, h7, h8, hfb, hrc,
          Bool.false_eq_true, if_false]
        unfold Model.mainKeySwitch
        rw [if_neg (by decide), if_neg (by decide), if_neg (by decide),
          if_neg (by decide), if_neg (by decide), if_pos (by decide),
          if_pos hap]
        rfl
  · intro m snaps fc nm pth
    show (Model.update m (.snapshotsLoaded snaps none fc nm pth)).1.snapPanel
      = _
    unfold Model.update
    dsimp only
    split
    · rw [logSelectedSnapshot_snapPanel]
    · rfl

/-- C4 amended witness: the selection-change query evaluated on the concrete
model with repo-b selected. -/
theorem claim_C4_amended_selection_query_witness :
    (modelSelB.update (.key "j")).2 = Cmd.loadSnapshots
    ∧ (modelSelB.update
        (.snapshotsLoaded [sampleSnap 1] none 0 "repo-b" "/b")).1.snapPanel =
      modelSelB.snapPanel.setSnapshots [sampleSnap 1] :=
  ⟨(claim_C4_amended_selection_query.1 modelSelB rfl rfl rfl rfl rfl rfl rfl
      rfl rfl).1,
   claim_C4_amended_selection_query.2 modelSelB [sampleSnap 1] 0 "repo-b"
     "/b"⟩

/-! ### C2: one in-flight operation per kind -/


/-- C2: with no modal open, a start-backup key while a backup is in progress
produces only a warning log — no command, no form, no state change — and
symmetrically for restore; while a restore request made during a backup
(restore itself idle, a snapshot selected) is accepted and opens the restore
form, the two kinds being independent. -/
theorem claim_C2_single_inflight :
    ∀ m : Model, m.showHelp = false → m.showBackupForm = false →
      m.showRestoreForm = false → m.filterInputActive = false →
      m.showFileBrowser = false → m.showFoundRepos = false →
      m.showRemoveConfirm = false → m.showRepoForm = false →
      (m.backupInProgress = true →
        m.update (.key "b") =
          ({ m with opsPanel :=
              m.opsPanel.warning "Backup already in progress" }, Cmd.none)
        ∧ (m.update (.key "b")).1.opsPanel.logs.getLast? =
            some ⟨"warning", "Backup already in progress"⟩)
      ∧ (m.restoreInProgress = true →
          m.update (.key "R") =
            ({ m with opsPanel :=
                m.opsPanel.warning "Restore already in progress" }, Cmd.none))
      ∧ (m.backupInProgress = true → m.restoreInProgress = false →
          m.snapPanel.getSelected.isSome = true →
          (m.update (.key "R")).1.showRestoreForm = true
          ∧ (m.update (.key "R")).2 = Cmd.none
          ∧ (m.update (.key "R")).1.backupInProgress = true) := by
  intro m h1 h2 h3 h4 h5 h6 h7 h8
  have hkey : ∀ k, m.update (.key k) = m.mainKeySwitch k := fun k =>
    updateKey_no_modal m k h1 h2 h3 h4 h5 h6 h7 h8
  refine ⟨?_, ?_, ?_⟩
  · intro hb
    have hstep : m.update (.key "b") =
        ({ m with opsPanel :=
            m.opsPanel.warning "Backup already in progress" }, Cmd.none) := by
      rw [hkey "b"]
      unfold Model.mainKeySwitch
      rw [if_neg (by decide), if_neg (by decide), if_neg (by decide),
        if_neg (by decide), if_neg (by decide), if_neg (by decide),
        if_neg (by decide), if_neg (by decide), if_neg (by decide),
        if_neg (by decide), if_neg (by decide), if_neg (by decide),
        if_neg (by decide), if_pos (by decide), hb]
      rw [if_neg (by simp), if_pos rfl]
    refine ⟨hstep, ?_⟩
    rw [hstep]
    exact addLog_getLast _ _ _
  · intro hr
    rw [hkey "R"]
    unfold Model.mainKeySwitch
    rw [if_neg (by decide), if_neg (by decide), if_neg (by decide),
      if_neg (by decide), if_neg (by decide), if_neg (by decide),
      if_neg (by decide), if_neg (by decide), if_neg (by decide),
      if_neg (by decide), if_neg (by decide), if_neg (by decide),
      if_neg (by decide), if_neg (by decide), if_pos (by decide)]
    dsimp only
    rw [hr]
    rw [if_neg (by simp), if_pos rfl]
  · intro hb hr hsel
    have hstep : m.update (.key "R") =
        ({ m with
            restoreForm := some ((newRestoreForm
              (m.snapPanel.getSelected.getD default)).setSize
              (m.width * 2 / 3) (m.height * 2 / 3)),
            showRestoreForm := true }, Cmd.none) := by
      rw [hkey "R"]
      unfold Model.mainKeySwitch
      rw [if_neg (by decide), if_neg (by decide), if_neg (by decide),
        if_neg (by decide), if_neg (by decide), if_neg (by decide),
        if_neg (by decide), if_neg (by decide), if_neg (by decide),
        if_neg (by decide), if_neg (by decide), if_neg (by decide),
        if_neg (by decide), if_neg (by decide), if_pos (by decide)]
      dsimp only
      rw [hr, hsel]
      rw [if_pos (by decide)]
    rw [hstep]
    exact ⟨rfl, rfl, hb⟩

/-- C2 witness: rejection and acceptance evaluated on the concrete model
with a backup running and a snapshot selected. -/
theorem claim_C2_single_inflight_witness :
    ((modelBusy.update (.key "b")).2 = Cmd.none
      ∧ (modelBusy.update (.key "b")).1.opsPanel.logs.getLast? =
          some ⟨"warning", "Backup already in progress"⟩)
    ∧ ((modelBusy.update (.key "R")).1.showRestoreForm = true
      ∧ (modelBusy.update (.key "R")).2 = Cmd.none) := by
  have h := claim_C2_single_inflight modelBusy rfl rfl rfl rfl rfl rfl rfl rfl
  refine ⟨⟨?_, (h.1 rfl).2⟩, ?_, (h.2.2 rfl rfl (by decide)).2.1⟩
  · rw [(h.1 rfl).1]
  · exact (h.2.2 rfl rfl (by decide)).1

end LazyRestic
